import Mathlib

/-! # Group function handlers for PGN 128006 (THR100 firmware 1.0.0)

A shallow embedding of `GroupFunctionHandlers.cpp`: the Command handler
`GroupFunctionHandlerForPGN128006::HandleCommand` and the Request handler
`GroupFunctionHandlerForPGN128006::HandleRequest`, followed by the properties
of the two handlers.

Conventions of the embedding.

* `uint8_t` values are natural numbers reduced `% 256` where the C++ code
  stores a byte; the read cursor (`int Index`) is an `Int`.
* `double` values are exact rationals.
* The NMEA2000 library is not part of the source file.  Its message reader
  (`GetByte`, `Get1ByteUDouble`, `Get2ByteDouble`, the two `StartParse...`
  functions, `IsBroadcast`, the request priority check) is a parameter
  (`N2kLibrary`): every general theorem holds for every implementation of
  these functions.  The acknowledgment primitives record what they are called
  with.
* The calls `pNMEA2000->SendMsg` and `this->updateFunction` are recorded in
  the result of a handler, in call order.
-/

namespace THR100

/-! ## Types of the NMEA2000 library used by the handlers -/

/-- Per-pair error code of an acknowledgment (the enumerators the handlers use). -/
inductive tN2kGroupFunctionParameterErrorCode
  | N2kgfpec_Acknowledge
  | N2kgfpec_InvalidRequestOrCommandParameterField
  | N2kgfpec_TemporarilyUnableToComply
  | N2kgfpec_RequestOrCommandParameterOutOfRange
  deriving DecidableEq

/-- Transmission-interval / priority error code of an acknowledgment. -/
inductive tN2kGroupFunctionTransmissionOrPriorityErrorCode
  | N2kgfTPec_Acknowledge
  | N2kgfTPec_TransmitIntervalOrPriorityNotSupported
  deriving DecidableEq

/-- PGN error code of an acknowledgment. -/
inductive tN2kGroupFunctionPGNErrorCode
  | N2kgfPGNec_Acknowledge
  deriving DecidableEq

/-- Thruster direction control (field 3). -/
inductive tN2kDD473
  | N2kDD473_OFF
  | N2kDD473_ThrusterReady
  | N2kDD473_ThrusterToPORT
  | N2kDD473_ThrusterToSTARBOARD
  deriving DecidableEq

/-- Generic on/off state (field 4). -/
inductive tN2kDD002
  | N2kDD002_Off
  | N2kDD002_On
  | N2kDD002_Error
  | N2kDD002_Unavailable
  deriving DecidableEq

/-- Thruster retract control (field 5). -/
inductive tN2kDD474
  | N2kDD474_OFF
  | N2kDD474_Extend
  | N2kDD474_Retract
  deriving DecidableEq

open tN2kGroupFunctionParameterErrorCode tN2kGroupFunctionTransmissionOrPriorityErrorCode
open tN2kGroupFunctionPGNErrorCode tN2kDD473 tN2kDD002 tN2kDD474

/-- An inbound message: the members the handlers read directly, and the payload
bytes the library reader works on. -/
structure tN2kMsg where
  Source : Nat
  Destination : Nat
  Data : List Nat
  deriving DecidableEq

/-- The functions of the NMEA2000 library the handlers call on the inbound
message.  A reader function takes the cursor and returns the value read
together with the cursor afterwards (the C++ functions take `int &Index`). -/
structure N2kLibrary where
  GetByte : tN2kMsg → Int → Nat × Int
  Get1ByteUDouble : ℚ → tN2kMsg → Int → ℚ × Int
  Get2ByteDouble : ℚ → tN2kMsg → Int → ℚ × Int
  StartParseCommandPairParameters : tN2kMsg → Int
  StartParseRequestPairParameters : tN2kMsg → Int
  IsBroadcast : Nat → Bool
  GetRequestGroupFunctionTransmissionOrPriorityErrorCode :
    Nat → tN2kGroupFunctionTransmissionOrPriorityErrorCode

/-- Modelled from the spec: the acknowledgment envelope built in `N2kRMsg`
(the library type and its start/append primitives are not in the source file).
It carries the destination, the PGN identifier, the PGN error code, the
transmission/priority error code, the declared pair count and the per-pair
error codes; `Parameters` lists the `(position, code)` arguments of the
`AddAcknowledgeParameter` calls in call order. -/
structure AckEnvelope where
  Destination : Nat
  PGN : Nat
  PGNErrorCode : tN2kGroupFunctionPGNErrorCode
  TransmissionOrPriorityErrorCode : tN2kGroupFunctionTransmissionOrPriorityErrorCode
  NumberOfParameterPairs : Nat
  Parameters : List (Nat × tN2kGroupFunctionParameterErrorCode)
  deriving DecidableEq

/-- Modelled from the spec: the start primitive of the acknowledgment envelope
(a library function); it fills in the header and no per-pair code. -/
def SetStartAcknowledge (Destination PGN : Nat)
    (PGNErrorCode : tN2kGroupFunctionPGNErrorCode)
    (TransmissionOrPriorityErrorCode : tN2kGroupFunctionTransmissionOrPriorityErrorCode)
    (NumberOfParameterPairs : Nat) : AckEnvelope :=
  { Destination := Destination
    PGN := PGN
    PGNErrorCode := PGNErrorCode
    TransmissionOrPriorityErrorCode := TransmissionOrPriorityErrorCode
    NumberOfParameterPairs := NumberOfParameterPairs
    Parameters := [] }

/-- Modelled from the spec: the append primitive of the acknowledgment envelope
(a library function); it puts `ErrorCode` at position `ParameterPairIndex`. -/
def AddAcknowledgeParameter (N2kRMsg : AckEnvelope) (ParameterPairIndex : Nat)
    (ErrorCode : tN2kGroupFunctionParameterErrorCode) : AckEnvelope :=
  { N2kRMsg with Parameters := N2kRMsg.Parameters ++ [(ParameterPairIndex, ErrorCode)] }

/-! ## The staging array of HandleCommand -/

/-- Modelled from the spec: the value union of `PGN128006_Field` (declared in
`GroupFunctionHandlers.h`, which is not in the source), one variant per member
the handler assigns; `Zero` is the zero-initialised union of `{false,0}`. -/
inductive PGN128006_Value
  | Zero
  | F02 (v : Nat)
  | F03 (v : tN2kDD473)
  | F04 (v : tN2kDD002)
  | F05 (v : tN2kDD474)
  | F06 (v : Nat)
  | F07 (events : Nat)
  | F08 (v : ℚ)
  | F09 (v : ℚ)
  deriving DecidableEq

/-- Modelled from the spec: one entry of the staging array, `{dirty, value}`
(declared in `GroupFunctionHandlers.h`, which is not in the source). -/
structure PGN128006_Field where
  dirty : Bool
  value : PGN128006_Value
  deriving DecidableEq

/-- The initialiser of `fields[]` in HandleCommand: ten entries `{false,0}`. -/
def initialFields : List PGN128006_Field :=
  List.replicate 10 { dirty := false, value := PGN128006_Value.Zero }

/-- The two assignments `fields[field].dirty = true; fields[field].value.Fxx = v`. -/
def stage (fields : List PGN128006_Field) (field : Nat) (v : PGN128006_Value) :
    List PGN128006_Field :=
  fields.set field { dirty := true, value := v }

/-! ## HandleCommand -/

/-- The locals of HandleCommand that the pair loop changes. -/
structure CommandLoop where
  Index : Int
  fields : List PGN128006_Field
  canUpdate : Bool
  N2kRMsg : AckEnvelope
  deriving DecidableEq

/-- The body of the `for` loop of HandleCommand (lines 111-159) for pair
number `i`: the field index byte is read, the `switch` decodes the value, and
the pair code is added to the acknowledgment.  The first component of the
intermediate pair is the state after the `switch`, the second is `PARec`. -/
def HandleCommand.pair (lib : N2kLibrary) (N2kMsg : tN2kMsg) (i : Nat) (s : CommandLoop) :
    CommandLoop :=
  let r := lib.GetByte N2kMsg s.Index
  let field := r.1 % 256
  let PARec := N2kgfpec_Acknowledge
  let t : CommandLoop × tN2kGroupFunctionParameterErrorCode :=
    match field with
    | 2 =>
      let v := lib.GetByte N2kMsg r.2
      ({ s with Index := v.2, fields := stage s.fields field (.F02 (v.1 % 256)) }, PARec)
    | 3 =>
      let v := lib.GetByte N2kMsg r.2
      match (v.1 % 256) &&& 0x0f with
      | 0 => ({ s with Index := v.2, fields := stage s.fields field (.F03 N2kDD473_OFF) }, PARec)
      | 1 => ({ s with Index := v.2, fields := stage s.fields field (.F03 N2kDD473_ThrusterReady) }, PARec)
      | 2 => ({ s with Index := v.2, fields := stage s.fields field (.F03 N2kDD473_ThrusterToPORT) }, PARec)
      | 3 => ({ s with Index := v.2, fields := stage s.fields field (.F03 N2kDD473_ThrusterToSTARBOARD) }, PARec)
      | _ => ({ s with Index := v.2, canUpdate := false }, N2kgfpec_RequestOrCommandParameterOutOfRange)
    | 4 =>
      let v := lib.GetByte N2kMsg r.2
      match (v.1 % 256) &&& 0x03 with
      | 0 => ({ s with Index := v.2, fields := stage s.fields field (.F04 N2kDD002_Off) }, PARec)
      | 1 => ({ s with Index := v.2, fields := stage s.fields field (.F04 N2kDD002_On) }, PARec)
      | 2 => ({ s with Index := v.2, fields := stage s.fields field (.F04 N2kDD002_Error) }, PARec)
      | 3 => ({ s with Index := v.2, fields := stage s.fields field (.F04 N2kDD002_Unavailable) }, PARec)
      | _ => ({ s with Index := v.2, canUpdate := false }, N2kgfpec_RequestOrCommandParameterOutOfRange)
    | 5 =>
      let v := lib.GetByte N2kMsg r.2
      match (v.1 % 256) &&& 0x03 with
      | 0 => ({ s with Index := v.2, fields := stage s.fields field (.F05 N2kDD474_OFF) }, PARec)
      | 1 => ({ s with Index := v.2, fields := stage s.fields field (.F05 N2kDD474_Extend) }, PARec)
      | 2 => ({ s with Index := v.2, fields := stage s.fields field (.F05 N2kDD474_Retract) }, PARec)
      | _ => ({ s with Index := v.2, canUpdate := false }, N2kgfpec_RequestOrCommandParameterOutOfRange)
    | 6 =>
      let v := lib.GetByte N2kMsg r.2
      ({ s with Index := v.2, fields := stage s.fields field (.F06 (v.1 % 256)) }, PARec)
    | 7 =>
      let v := lib.GetByte N2kMsg r.2
      ({ s with Index := v.2, fields := stage s.fields field (.F07 (v.1 % 256)) }, PARec)
    | 8 =>
      let v := lib.Get1ByteUDouble 0.005 N2kMsg r.2
      ({ s with Index := v.2, fields := stage s.fields field (.F08 v.1) }, PARec)
    | 9 =>
      let v := lib.Get2ByteDouble 0.0001 N2kMsg r.2
      ({ s with Index := v.2, fields := stage s.fields field (.F09 v.1) }, PARec)
    | _ => ({ s with Index := r.2 }, N2kgfpec_InvalidRequestOrCommandParameterField)
  { t.1 with N2kRMsg := AddAcknowledgeParameter t.1.N2kRMsg i t.2 }

/-- The loop `for (i = 0; i < NumberOfParameterPairs; i++)` of HandleCommand,
entered at pair number `i` with `count` iterations left. -/
def HandleCommand.loop (lib : N2kLibrary) (N2kMsg : tN2kMsg) :
    Nat → Nat → CommandLoop → CommandLoop
  | 0, _, s => s
  | count + 1, i, s => HandleCommand.loop lib N2kMsg count (i + 1) (HandleCommand.pair lib N2kMsg i s)

/-- What a handler did: the `SendMsg` calls (message and device index), the
`updateFunction` calls (the array handed over), in call order, and the value
returned. -/
structure CommandResult where
  sent : List (AckEnvelope × Int)
  updated : List (List PGN128006_Field)
  returned : Bool
  deriving DecidableEq

/-- The transmission/priority error code HandleCommand computes on lines 92-98. -/
def HandleCommand.pec (PrioritySetting : Nat) : tN2kGroupFunctionTransmissionOrPriorityErrorCode :=
  if PrioritySetting ≠ 0x08 ∨ PrioritySetting ≠ 0x0f ∨ PrioritySetting ≠ 0x09 then
    N2kgfTPec_TransmitIntervalOrPriorityNotSupported
  else N2kgfTPec_Acknowledge

/-- The state of the locals when the pair loop of HandleCommand starts
(lines 92-109). -/
def HandleCommand.start (lib : N2kLibrary) (N2kMsg : tN2kMsg) (PrioritySetting : Nat)
    (NumberOfParameterPairs : Nat) : CommandLoop :=
  { Index := lib.StartParseCommandPairParameters N2kMsg
    fields := initialFields
    canUpdate := true
    N2kRMsg := SetStartAcknowledge N2kMsg.Source 128006 N2kgfPGNec_Acknowledge
      (HandleCommand.pec PrioritySetting) NumberOfParameterPairs }

/-- The state of the locals when the pair loop of HandleCommand has ended. -/
def HandleCommand.final (lib : N2kLibrary) (N2kMsg : tN2kMsg) (PrioritySetting : Nat)
    (NumberOfParameterPairs : Nat) : CommandLoop :=
  HandleCommand.loop lib N2kMsg NumberOfParameterPairs 0
    (HandleCommand.start lib N2kMsg PrioritySetting NumberOfParameterPairs)

/-- `GroupFunctionHandlerForPGN128006::HandleCommand` (lines 88-166). -/
def HandleCommand (lib : N2kLibrary) (N2kMsg : tN2kMsg) (PrioritySetting : Nat)
    (NumberOfParameterPairs : Nat) (iDev : Int) : CommandResult :=
  let s := HandleCommand.final lib N2kMsg PrioritySetting NumberOfParameterPairs
  { sent := [(s.N2kRMsg, iDev)]
    updated := if s.canUpdate then [s.fields] else []
    returned := true }

/-! ## HandleRequest -/

/-- The locals of HandleRequest that the pair loop changes.  `FieldErrorCode`
is declared without an initialiser on line 50. -/
structure RequestLoop where
  index : Int
  FieldErrorCode : tN2kGroupFunctionParameterErrorCode
  MatchFilter : Bool
  FoundInvalidField : Bool
  N2kRMsg : AckEnvelope
  deriving DecidableEq

/-- The `if (!FoundInvalidField) ... else ...` statement of the loop body of
HandleRequest (lines 55-82).  The cases 2 to 9 of the `switch` are a bare
`break`. -/
def HandleRequest.check (lib : N2kLibrary) (N2kMsg : tN2kMsg) (s : RequestLoop) : RequestLoop :=
  if !s.FoundInvalidField then
    let r := lib.GetByte N2kMsg s.index
    let field := r.1 % 256
    match field with
    | 2 => { s with index := r.2 }
    | 3 => { s with index := r.2 }
    | 4 => { s with index := r.2 }
    | 5 => { s with index := r.2 }
    | 6 => { s with index := r.2 }
    | 7 => { s with index := r.2 }
    | 8 => { s with index := r.2 }
    | 9 => { s with index := r.2 }
    | _ =>
      { s with
        index := r.2
        FieldErrorCode := N2kgfpec_InvalidRequestOrCommandParameterField
        MatchFilter := false
        FoundInvalidField := true }
  else
    { s with FieldErrorCode := N2kgfpec_TemporarilyUnableToComply }

/-- The body of the `for` loop of HandleRequest (lines 55-83) for pair
number `i`: the check, then `AddAcknowledgeParameter(N2kRMsg, i, FieldErrorCode)`. -/
def HandleRequest.pair (lib : N2kLibrary) (N2kMsg : tN2kMsg) (i : Nat) (s : RequestLoop) :
    RequestLoop :=
  let t := HandleRequest.check lib N2kMsg s
  { t with N2kRMsg := AddAcknowledgeParameter t.N2kRMsg i t.FieldErrorCode }

/-- The loop `for (i = 0; (i < NumberOfParameterPairs) && (MatchFilter ||
IsBroadcast(N2kMsg.Destination)); i++)` of HandleRequest, entered at pair
number `i` with `count = NumberOfParameterPairs - i` left. -/
def HandleRequest.loop (lib : N2kLibrary) (N2kMsg : tN2kMsg) :
    Nat → Nat → RequestLoop → RequestLoop
  | 0, _, s => s
  | count + 1, i, s =>
    if s.MatchFilter || lib.IsBroadcast N2kMsg.Destination then
      HandleRequest.loop lib N2kMsg count (i + 1) (HandleRequest.pair lib N2kMsg i s)
    else s

/-- What HandleRequest did: the envelope it has built in its local `N2kRMsg`
when control reaches the end of the function, and the `SendMsg` calls. -/
structure RequestResult where
  N2kRMsg : AckEnvelope
  sent : List (AckEnvelope × Int)
  deriving DecidableEq

/-- The envelope HandleRequest starts with (lines 30-44). -/
def HandleRequest.envelope (lib : N2kLibrary) (PGN : Nat) (N2kMsg : tN2kMsg)
    (TransmissionInterval : Nat) (NumberOfParameterPairs : Nat) : AckEnvelope :=
  { SetStartAcknowledge N2kMsg.Source PGN N2kgfPGNec_Acknowledge
      (lib.GetRequestGroupFunctionTransmissionOrPriorityErrorCode TransmissionInterval)
      NumberOfParameterPairs with
    Destination := N2kMsg.Source }

/-- `GroupFunctionHandlerForPGN128006::HandleRequest` (lines 29-86).  `PGN` is
the member of the handler object; `uninitialised` is the indeterminate value
the local `FieldErrorCode` holds when it is declared.  The function body has
no `SendMsg` call and no `return` statement. -/
def HandleRequest (lib : N2kLibrary) (PGN : Nat)
    (uninitialised : tN2kGroupFunctionParameterErrorCode) (N2kMsg : tN2kMsg)
    (TransmissionInterval : Nat) (TransmissionIntervalOffset : Nat)
    (NumberOfParameterPairs : Nat) (iDev : Int) : RequestResult :=
  let _ := TransmissionIntervalOffset
  let _ := iDev
  let N2kRMsg := HandleRequest.envelope lib PGN N2kMsg TransmissionInterval NumberOfParameterPairs
  if NumberOfParameterPairs > 0 then
    let s := HandleRequest.loop lib N2kMsg NumberOfParameterPairs 0
      { index := lib.StartParseRequestPairParameters N2kMsg
        FieldErrorCode := uninitialised
        MatchFilter := true
        FoundInvalidField := false
        N2kRMsg := N2kRMsg }
    { N2kRMsg := s.N2kRMsg, sent := [] }
  else
    { N2kRMsg := N2kRMsg, sent := [] }

/-! ## A concrete reader -/

/-- Modelled from the spec: the byte-cursor reads of the message reader
(section 6: pairs are read sequentially from a shared cursor, one byte for a
field index, one byte or two bytes for a value).  `Data` holds the bytes from
the first parameter pair on, the cursor starts at 0, a byte that is not there
reads as 0xff, two bytes are little-endian two-complement, and address 255 is
the broadcast address.  It is used to run the handlers on concrete
messages. -/
def simpleLibrary : N2kLibrary where
  GetByte := fun m Index => (m.Data.getD Index.toNat 0xff % 256, Index + 1)
  Get1ByteUDouble := fun precision m Index =>
    (((m.Data.getD Index.toNat 0xff % 256 : Nat) : ℚ) * precision, Index + 1)
  Get2ByteDouble := fun precision m Index =>
    let raw := m.Data.getD Index.toNat 0xff % 256 + 256 * (m.Data.getD (Index.toNat + 1) 0xff % 256)
    ((if raw < 32768 then (raw : ℚ) else (raw : ℚ) - 65536) * precision, Index + 2)
  StartParseCommandPairParameters := fun _ => 0
  StartParseRequestPairParameters := fun _ => 0
  IsBroadcast := fun a => a == 255
  GetRequestGroupFunctionTransmissionOrPriorityErrorCode := fun _ => N2kgfTPec_Acknowledge

/-! ## The pairs of a command, as the specification describes them -/

/-- Outcome of decoding one pair: a value to stage, or an error code. -/
inductive Decoded
  | Ok (v : PGN128006_Value)
  | Err (c : tN2kGroupFunctionParameterErrorCode)
  deriving DecidableEq

/-- The acknowledgment code of an outcome. -/
def Decoded.code : Decoded → tN2kGroupFunctionParameterErrorCode
  | .Ok _ => N2kgfpec_Acknowledge
  | .Err c => c

/-- Rule 3 of the FieldCodec table: the low nibble names one of four states,
any other nibble value is out of range. -/
def decodeDirection (b : Nat) : Decoded :=
  if b % 16 = 0 then .Ok (.F03 N2kDD473_OFF)
  else if b % 16 = 1 then .Ok (.F03 N2kDD473_ThrusterReady)
  else if b % 16 = 2 then .Ok (.F03 N2kDD473_ThrusterToPORT)
  else if b % 16 = 3 then .Ok (.F03 N2kDD473_ThrusterToSTARBOARD)
  else .Err N2kgfpec_RequestOrCommandParameterOutOfRange

/-- Rule 4 of the FieldCodec table: the low two bits name one of four states,
all four are valid. -/
def decodePower (b : Nat) : Decoded :=
  if b % 4 = 0 then .Ok (.F04 N2kDD002_Off)
  else if b % 4 = 1 then .Ok (.F04 N2kDD002_On)
  else if b % 4 = 2 then .Ok (.F04 N2kDD002_Error)
  else .Ok (.F04 N2kDD002_Unavailable)

/-- Rule 5 of the FieldCodec table: the low two bits name one of three states,
value 3 is out of range. -/
def decodeRetract (b : Nat) : Decoded :=
  if b % 4 = 0 then .Ok (.F05 N2kDD474_OFF)
  else if b % 4 = 1 then .Ok (.F05 N2kDD474_Extend)
  else if b % 4 = 2 then .Ok (.F05 N2kDD474_Retract)
  else .Err N2kgfpec_RequestOrCommandParameterOutOfRange

/-- The FieldCodec of the specification (section 4.1), written from its table
of per-field rules: the outcome for field index `field` with the value at
`cursor`, and the cursor after the value. -/
def FieldCodec (lib : N2kLibrary) (m : tN2kMsg) (field : Nat) (cursor : Int) : Decoded × Int :=
  let b := (lib.GetByte m cursor).1 % 256
  let after := (lib.GetByte m cursor).2
  if field = 2 then (.Ok (.F02 b), after)
  else if field = 3 then (decodeDirection b, after)
  else if field = 4 then (decodePower b, after)
  else if field = 5 then (decodeRetract b, after)
  else if field = 6 then (.Ok (.F06 b), after)
  else if field = 7 then (.Ok (.F07 b), after)
  else if field = 8 then
    (.Ok (.F08 (lib.Get1ByteUDouble 0.005 m cursor).1), (lib.Get1ByteUDouble 0.005 m cursor).2)
  else if field = 9 then
    (.Ok (.F09 (lib.Get2ByteDouble 0.0001 m cursor).1), (lib.Get2ByteDouble 0.0001 m cursor).2)
  else (.Err N2kgfpec_InvalidRequestOrCommandParameterField, cursor)

/-- One parameter pair of a command as it lies at the read cursor: its field
index byte, the cursor of its value, and its outcome. -/
structure ParameterPair where
  field : Nat
  valueCursor : Int
  outcome : Decoded
  deriving DecidableEq

/-- The value byte of a pair: the byte at its value cursor. -/
def ParameterPair.valueByte (lib : N2kLibrary) (m : tN2kMsg) (p : ParameterPair) : Nat :=
  (lib.GetByte m p.valueCursor).1 % 256

/-- The pair at `cursor`: the field index byte is read, then FieldCodec runs
at the cursor behind it. -/
def pairAt (lib : N2kLibrary) (m : tN2kMsg) (cursor : Int) : ParameterPair :=
  { field := (lib.GetByte m cursor).1 % 256
    valueCursor := (lib.GetByte m cursor).2
    outcome := (FieldCodec lib m ((lib.GetByte m cursor).1 % 256) (lib.GetByte m cursor).2).1 }

/-- The cursor behind the pair at `cursor`. -/
def cursorAfter (lib : N2kLibrary) (m : tN2kMsg) (cursor : Int) : Int :=
  (FieldCodec lib m ((lib.GetByte m cursor).1 % 256) (lib.GetByte m cursor).2).2

/-- The `count` pairs of a command read one after the other from `cursor`. -/
def commandPairs (lib : N2kLibrary) (m : tN2kMsg) : Nat → Int → List ParameterPair
  | 0, _ => []
  | count + 1, cursor => pairAt lib m cursor :: commandPairs lib m count (cursorAfter lib m cursor)

/-- The pairs of the command HandleCommand is called with. -/
def pairsOf (lib : N2kLibrary) (m : tN2kMsg) (NumberOfParameterPairs : Nat) : List ParameterPair :=
  commandPairs lib m NumberOfParameterPairs (lib.StartParseCommandPairParameters m)

/-- The field indices of a request read one after the other from `cursor`,
one byte each. -/
def requestedFields (lib : N2kLibrary) (m : tN2kMsg) : Nat → Int → List Nat
  | 0, _ => []
  | count + 1, cursor =>
    (lib.GetByte m cursor).1 % 256 :: requestedFields lib m count (lib.GetByte m cursor).2

/-- The field indices of the request HandleRequest is called with. -/
def fieldsOf (lib : N2kLibrary) (m : tN2kMsg) (NumberOfParameterPairs : Nat) : List Nat :=
  requestedFields lib m NumberOfParameterPairs (lib.StartParseRequestPairParameters m)

/-- The supported set of field indices, 2 to 9. -/
def supported (field : Nat) : Prop := 2 ≤ field ∧ field ≤ 9

instance (field : Nat) : Decidable (supported field) := by
  unfold supported; infer_instance

/-- The staging array after a pair: a decoded value is staged at the field
index of the pair, a failed pair stages nothing. -/
def stagePair (fields : List PGN128006_Field) (p : ParameterPair) : List PGN128006_Field :=
  match p.outcome with
  | .Ok v => stage fields p.field v
  | .Err _ => fields

/-- Whether a pair leaves `canUpdate` as it is: every outcome but
ParameterOutOfRange does. -/
def keepsGate (p : ParameterPair) : Bool :=
  decide (p.outcome ≠ .Err N2kgfpec_RequestOrCommandParameterOutOfRange)

/-- Whether an entry of the staging array exists at `k` and is dirty. -/
def dirtyAt (fields : List PGN128006_Field) (k : Nat) : Prop :=
  ∃ e, fields[k]? = some e ∧ e.dirty = true

instance (fields : List PGN128006_Field) (k : Nat) : Decidable (dirtyAt fields k) :=
  decidable_of_iff ((fields[k]?.map fun e => e.dirty) = some true) (by
    unfold dirtyAt
    cases fields[k]? <;> simp)

/-- The code HandleRequest adds at position `j` when the first unsupported
field index is at position `k`: the content of `FieldErrorCode` before the
loop at the positions before `k`, InvalidField at `k`, TemporarilyUnableToComply
behind `k`. -/
def requestCode (u : tN2kGroupFunctionParameterErrorCode) (k j : Nat) :
    tN2kGroupFunctionParameterErrorCode :=
  if j < k then u
  else if j = k then N2kgfpec_InvalidRequestOrCommandParameterField
  else N2kgfpec_TemporarilyUnableToComply

/-- The value of a raw two-byte number read as a signed 16-bit number in
two-complement (`int16_t`). -/
def int16_t (raw : Nat) : Int :=
  if raw % 65536 < 32768 then (raw % 65536 : Nat) else ((raw % 65536 : Nat) : Int) - 65536

/-! ## Lemmas on the reader and the codec -/

theorem land_0x0f (x : Nat) : x &&& 0x0f = x % 16 := Nat.and_pow_two_sub_one_eq_mod x 4

theorem land_0x03 (x : Nat) : x &&& 0x03 = x % 4 := Nat.and_pow_two_sub_one_eq_mod x 2

theorem field_cases (f : Nat) :
    f = 2 ∨ f = 3 ∨ f = 4 ∨ f = 5 ∨ f = 6 ∨ f = 7 ∨ f = 8 ∨ f = 9 ∨ ¬ supported f := by
  unfold supported; omega

theorem FieldCodec_unsupported (lib : N2kLibrary) (m : tN2kMsg) (f : Nat) (c : Int)
    (h : ¬ supported f) :
    FieldCodec lib m f c = (.Err N2kgfpec_InvalidRequestOrCommandParameterField, c) := by
  unfold supported at h
  have hne : f ≠ 2 ∧ f ≠ 3 ∧ f ≠ 4 ∧ f ≠ 5 ∧ f ≠ 6 ∧ f ≠ 7 ∧ f ≠ 8 ∧ f ≠ 9 := by omega
  obtain ⟨h2, h3, h4, h5, h6, h7, h8, h9⟩ := hne
  simp only [FieldCodec, if_neg h2, if_neg h3, if_neg h4, if_neg h5, if_neg h6, if_neg h7,
    if_neg h8, if_neg h9]

theorem decodeDirection_outOfRange_iff (b : Nat) :
    decodeDirection b = .Err N2kgfpec_RequestOrCommandParameterOutOfRange ↔ 4 ≤ b % 16 := by
  unfold decodeDirection
  split_ifs <;> simp <;> omega

theorem decodeRetract_outOfRange_iff (b : Nat) :
    decodeRetract b = .Err N2kgfpec_RequestOrCommandParameterOutOfRange ↔ b % 4 = 3 := by
  unfold decodeRetract
  split_ifs <;> simp <;> omega

theorem decodeDirection_cases (b : Nat) :
    (∃ v, decodeDirection b = .Ok v) ∨
      decodeDirection b = .Err N2kgfpec_RequestOrCommandParameterOutOfRange := by
  unfold decodeDirection
  split_ifs <;> simp

theorem decodePower_ok (b : Nat) : ∃ v, decodePower b = .Ok v := by
  unfold decodePower
  split_ifs <;> simp

theorem decodeRetract_cases (b : Nat) :
    (∃ v, decodeRetract b = .Ok v) ∨
      decodeRetract b = .Err N2kgfpec_RequestOrCommandParameterOutOfRange := by
  unfold decodeRetract
  split_ifs <;> simp

theorem FieldCodec_outOfRange_iff (lib : N2kLibrary) (m : tN2kMsg) (f : Nat) (c : Int) :
    (FieldCodec lib m f c).1 = .Err N2kgfpec_RequestOrCommandParameterOutOfRange ↔
      (f = 3 ∧ 4 ≤ (lib.GetByte m c).1 % 256 % 16) ∨ (f = 5 ∧ (lib.GetByte m c).1 % 256 % 4 = 3) := by
  rcases field_cases f with rfl | rfl | rfl | rfl | rfl | rfl | rfl | rfl | h
  · simp [FieldCodec]
  · simp [FieldCodec, decodeDirection_outOfRange_iff]
  · obtain ⟨v, hv⟩ := decodePower_ok ((lib.GetByte m c).1 % 256)
    simp [FieldCodec, hv]
  · simp [FieldCodec, decodeRetract_outOfRange_iff]
  · simp [FieldCodec]
  · simp [FieldCodec]
  · simp [FieldCodec]
  · simp [FieldCodec]
  · rw [FieldCodec_unsupported lib m f c h]
    unfold supported at h
    simp
    omega

theorem FieldCodec_invalid_iff (lib : N2kLibrary) (m : tN2kMsg) (f : Nat) (c : Int) :
    (FieldCodec lib m f c).1 = .Err N2kgfpec_InvalidRequestOrCommandParameterField ↔
      ¬ supported f := by
  rcases field_cases f with rfl | rfl | rfl | rfl | rfl | rfl | rfl | rfl | h
  · simp [FieldCodec, supported]
  · rcases decodeDirection_cases ((lib.GetByte m c).1 % 256) with ⟨v, hv⟩ | hv <;>
      simp [FieldCodec, supported, hv]
  · obtain ⟨v, hv⟩ := decodePower_ok ((lib.GetByte m c).1 % 256)
    simp [FieldCodec, supported, hv]
  · rcases decodeRetract_cases ((lib.GetByte m c).1 % 256) with ⟨v, hv⟩ | hv <;>
      simp [FieldCodec, supported, hv]
  · simp [FieldCodec, supported]
  · simp [FieldCodec, supported]
  · simp [FieldCodec, supported]
  · simp [FieldCodec, supported]
  · simp [FieldCodec_unsupported lib m f c h, h]

theorem FieldCodec_cases (lib : N2kLibrary) (m : tN2kMsg) (f : Nat) (c : Int) :
    (∃ v, (FieldCodec lib m f c).1 = .Ok v) ∨
      (FieldCodec lib m f c).1 = .Err N2kgfpec_RequestOrCommandParameterOutOfRange ∨
      (FieldCodec lib m f c).1 = .Err N2kgfpec_InvalidRequestOrCommandParameterField := by
  rcases field_cases f with rfl | rfl | rfl | rfl | rfl | rfl | rfl | rfl | h
  · exact Or.inl ⟨_, rfl⟩
  · rcases decodeDirection_cases ((lib.GetByte m c).1 % 256) with ⟨v, hv⟩ | hv
    · exact Or.inl ⟨v, hv⟩
    · exact Or.inr (Or.inl hv)
  · obtain ⟨v, hv⟩ := decodePower_ok ((lib.GetByte m c).1 % 256)
    exact Or.inl ⟨v, hv⟩
  · rcases decodeRetract_cases ((lib.GetByte m c).1 % 256) with ⟨v, hv⟩ | hv
    · exact Or.inl ⟨v, hv⟩
    · exact Or.inr (Or.inl hv)
  · exact Or.inl ⟨_, rfl⟩
  · exact Or.inl ⟨_, rfl⟩
  · exact Or.inl ⟨_, rfl⟩
  · exact Or.inl ⟨_, rfl⟩
  · exact Or.inr (Or.inr (by rw [FieldCodec_unsupported lib m f c h]))

theorem pair_eq (lib : N2kLibrary) (m : tN2kMsg) (i : Nat) (s : CommandLoop) :
    HandleCommand.pair lib m i s =
      { Index := cursorAfter lib m s.Index
        fields := stagePair s.fields (pairAt lib m s.Index)
        canUpdate := s.canUpdate && keepsGate (pairAt lib m s.Index)
        N2kRMsg := AddAcknowledgeParameter s.N2kRMsg i (pairAt lib m s.Index).outcome.code } := by
  unfold HandleCommand.pair cursorAfter pairAt keepsGate stagePair FieldCodec
  simp only [land_0x0f, land_0x03]
  generalize (lib.GetByte m s.Index).1 % 256 = f
  generalize (lib.GetByte m s.Index).2 = c
  split
  · simp [Decoded.code]
  · generalize (lib.GetByte m c).1 % 256 = b
    unfold decodeDirection
    split <;> simp_all [Decoded.code]
  · generalize (lib.GetByte m c).1 % 256 = b
    have hb : b % 4 < 4 := Nat.mod_lt _ (by decide)
    unfold decodePower
    split <;> simp_all [Decoded.code]
    omega
  · generalize (lib.GetByte m c).1 % 256 = b
    unfold decodeRetract
    split <;> simp_all [Decoded.code]
  · simp [Decoded.code]
  · simp [Decoded.code]
  · simp [Decoded.code]
  · simp [Decoded.code]
  · simp_all [Decoded.code]

/-! ## The pair loop of HandleCommand in terms of the pairs of the command -/

theorem commandPairs_length (lib : N2kLibrary) (m : tN2kMsg) :
    ∀ (count : Nat) (cursor : Int), (commandPairs lib m count cursor).length = count := by
  intro count
  induction count with
  | zero => intro cursor; rfl
  | succ k ih => intro cursor; simp [commandPairs, ih]

theorem mem_commandPairs_outcome (lib : N2kLibrary) (m : tN2kMsg) :
    ∀ (count : Nat) (cursor : Int) (p : ParameterPair), p ∈ commandPairs lib m count cursor →
      p.outcome = (FieldCodec lib m p.field p.valueCursor).1 := by
  intro count
  induction count with
  | zero => intro cursor p hp; simp [commandPairs] at hp
  | succ k ih =>
    intro cursor p hp
    simp only [commandPairs, List.mem_cons] at hp
    rcases hp with rfl | hp
    · rfl
    · exact ih _ p hp

theorem loop_Parameters (lib : N2kLibrary) (m : tN2kMsg) :
    ∀ (count i : Nat) (s : CommandLoop),
      (HandleCommand.loop lib m count i s).N2kRMsg.Parameters =
        s.N2kRMsg.Parameters ++
          (List.range' i count).zip ((commandPairs lib m count s.Index).map fun p => p.outcome.code) := by
  intro count
  induction count with
  | zero => intro i s; simp [HandleCommand.loop, commandPairs]
  | succ k ih =>
    intro i s
    rw [HandleCommand.loop, ih, pair_eq]
    simp [AddAcknowledgeParameter, commandPairs, List.range'_succ]

theorem loop_canUpdate (lib : N2kLibrary) (m : tN2kMsg) :
    ∀ (count i : Nat) (s : CommandLoop),
      (HandleCommand.loop lib m count i s).canUpdate =
        (s.canUpdate && (commandPairs lib m count s.Index).all keepsGate) := by
  intro count
  induction count with
  | zero => intro i s; simp [HandleCommand.loop, commandPairs]
  | succ k ih =>
    intro i s
    rw [HandleCommand.loop, ih, pair_eq]
    simp [commandPairs, Bool.and_assoc]

theorem loop_fields (lib : N2kLibrary) (m : tN2kMsg) :
    ∀ (count i : Nat) (s : CommandLoop),
      (HandleCommand.loop lib m count i s).fields =
        (commandPairs lib m count s.Index).foldl stagePair s.fields := by
  intro count
  induction count with
  | zero => intro i s; simp [HandleCommand.loop, commandPairs]
  | succ k ih =>
    intro i s
    rw [HandleCommand.loop, ih, pair_eq]
    simp [commandPairs]

theorem final_Parameters (lib : N2kLibrary) (m : tN2kMsg) (prio n : Nat) :
    (HandleCommand.final lib m prio n).N2kRMsg.Parameters =
      (List.range' 0 n).zip ((pairsOf lib m n).map fun p => p.outcome.code) := by
  simp [HandleCommand.final, loop_Parameters, HandleCommand.start, SetStartAcknowledge, pairsOf]

theorem final_canUpdate (lib : N2kLibrary) (m : tN2kMsg) (prio n : Nat) :
    (HandleCommand.final lib m prio n).canUpdate = (pairsOf lib m n).all keepsGate := by
  simp [HandleCommand.final, loop_canUpdate, HandleCommand.start, pairsOf]

theorem final_fields (lib : N2kLibrary) (m : tN2kMsg) (prio n : Nat) :
    (HandleCommand.final lib m prio n).fields = (pairsOf lib m n).foldl stagePair initialFields := by
  simp [HandleCommand.final, loop_fields, HandleCommand.start, pairsOf]

theorem mem_pairsOf_outOfRange_iff (lib : N2kLibrary) (m : tN2kMsg) (n : Nat) (p : ParameterPair)
    (hp : p ∈ pairsOf lib m n) :
    p.outcome = .Err N2kgfpec_RequestOrCommandParameterOutOfRange ↔
      (p.field = 3 ∧ 4 ≤ p.valueByte lib m % 16) ∨ (p.field = 5 ∧ p.valueByte lib m % 4 = 3) := by
  rw [mem_commandPairs_outcome lib m _ _ p hp, FieldCodec_outOfRange_iff]
  rfl

theorem mem_pairsOf_invalid_iff (lib : N2kLibrary) (m : tN2kMsg) (n : Nat) (p : ParameterPair)
    (hp : p ∈ pairsOf lib m n) :
    p.outcome = .Err N2kgfpec_InvalidRequestOrCommandParameterField ↔ ¬ supported p.field := by
  rw [mem_commandPairs_outcome lib m _ _ p hp, FieldCodec_invalid_iff]

theorem mem_pairsOf_cases (lib : N2kLibrary) (m : tN2kMsg) (n : Nat) (p : ParameterPair)
    (hp : p ∈ pairsOf lib m n) :
    (∃ v, p.outcome = .Ok v) ∨
      p.outcome = .Err N2kgfpec_RequestOrCommandParameterOutOfRange ∨
      p.outcome = .Err N2kgfpec_InvalidRequestOrCommandParameterField := by
  rw [mem_commandPairs_outcome lib m _ _ p hp]
  exact FieldCodec_cases lib m p.field p.valueCursor

/-! ## Properties of HandleCommand -/

/-- C1: for every command message and every pair count, HandleCommand sends
exactly one acknowledgment; it carries exactly NumberOfParameterPairs per-pair
codes, and the entry at position i is position i together with the outcome code
of the i-th pair of the input, in input order. -/
theorem HandleCommand_acknowledges_each_pair (lib : N2kLibrary) (N2kMsg : tN2kMsg)
    (PrioritySetting NumberOfParameterPairs : Nat) (iDev : Int) :
    ∃ ack : AckEnvelope,
      (HandleCommand lib N2kMsg PrioritySetting NumberOfParameterPairs iDev).sent = [(ack, iDev)] ∧
      ack.Parameters.length = NumberOfParameterPairs ∧
      (pairsOf lib N2kMsg NumberOfParameterPairs).length = NumberOfParameterPairs ∧
      ∀ i, i < NumberOfParameterPairs →
        ∃ p, (pairsOf lib N2kMsg NumberOfParameterPairs)[i]? = some p ∧
          ack.Parameters[i]? = some (i, p.outcome.code) := by
  have hlen : (pairsOf lib N2kMsg NumberOfParameterPairs).length = NumberOfParameterPairs :=
    commandPairs_length _ _ _ _
  refine ⟨_, rfl, ?_, hlen, ?_⟩
  · simp [final_Parameters, hlen]
  · intro i hi
    refine ⟨(pairsOf lib N2kMsg NumberOfParameterPairs)[i], List.getElem?_eq_getElem (by omega), ?_⟩
    simp [final_Parameters, List.getElem?_zip_eq_some, List.getElem?_range', hi]
    exact ⟨_, List.getElem?_eq_getElem (by omega), rfl⟩

/-- C2: when some pair of the command has field index 3 with a low nibble of 4
to 15, or field index 5 with low two bits equal to 3, HandleCommand does not
invoke the update function, whatever the other pairs are and wherever the bad
pair sits. -/
theorem HandleCommand_outOfRange_blocks_update (lib : N2kLibrary) (N2kMsg : tN2kMsg)
    (PrioritySetting NumberOfParameterPairs : Nat) (iDev : Int)
    (h : ∃ p ∈ pairsOf lib N2kMsg NumberOfParameterPairs,
      (p.field = 3 ∧ 4 ≤ p.valueByte lib N2kMsg % 16) ∨
        (p.field = 5 ∧ p.valueByte lib N2kMsg % 4 = 3)) :
    (HandleCommand lib N2kMsg PrioritySetting NumberOfParameterPairs iDev).updated = [] := by
  obtain ⟨p, hp, hbad⟩ := h
  have hout := (mem_pairsOf_outOfRange_iff lib N2kMsg _ p hp).2 hbad
  have hgate : (pairsOf lib N2kMsg NumberOfParameterPairs).all keepsGate = false := by
    rw [List.all_eq_false]
    exact ⟨p, hp, by simp [keepsGate, hout]⟩
  simp [HandleCommand, final_canUpdate, hgate]

/-- C2 at a concrete command: the pairs (3, value 4) and (2, value 9); the
first is out of range, the second decodes, and no update is made. -/
theorem HandleCommand_outOfRange_blocks_update_witness :
    (∃ p ∈ pairsOf simpleLibrary ⟨7, 255, [3, 4, 2, 9]⟩ 2,
      (p.field = 3 ∧ 4 ≤ p.valueByte simpleLibrary ⟨7, 255, [3, 4, 2, 9]⟩ % 16) ∨
        (p.field = 5 ∧ p.valueByte simpleLibrary ⟨7, 255, [3, 4, 2, 9]⟩ % 4 = 3)) ∧
      (HandleCommand simpleLibrary ⟨7, 255, [3, 4, 2, 9]⟩ 8 2 0).updated = [] :=
  have h : ∃ p ∈ pairsOf simpleLibrary ⟨7, 255, [3, 4, 2, 9]⟩ 2,
      (p.field = 3 ∧ 4 ≤ p.valueByte simpleLibrary ⟨7, 255, [3, 4, 2, 9]⟩ % 16) ∨
        (p.field = 5 ∧ p.valueByte simpleLibrary ⟨7, 255, [3, 4, 2, 9]⟩ % 4 = 3) :=
    ⟨⟨3, 1, .Err N2kgfpec_RequestOrCommandParameterOutOfRange⟩, by decide, by decide⟩
  ⟨h, HandleCommand_outOfRange_blocks_update simpleLibrary ⟨7, 255, [3, 4, 2, 9]⟩ 8 2 0 h⟩

/-- C3 at a failing input: the command with the two pairs (2, value 17) and
(index 0).  The second pair is acknowledged with InvalidField, and the update
function is invoked all the same, with entry 2 staged. -/
theorem HandleCommand_invalidField_still_updates :
    (pairsOf simpleLibrary ⟨7, 255, [2, 17, 0]⟩ 2).map (fun p => (p.field, p.outcome)) =
        [(2, .Ok (.F02 17)), (0, .Err N2kgfpec_InvalidRequestOrCommandParameterField)] ∧
      (HandleCommand simpleLibrary ⟨7, 255, [2, 17, 0]⟩ 8 2 0).sent.map (fun a => a.1.Parameters) =
        [[(0, N2kgfpec_Acknowledge), (1, N2kgfpec_InvalidRequestOrCommandParameterField)]] ∧
      (HandleCommand simpleLibrary ⟨7, 255, [2, 17, 0]⟩ 8 2 0).updated =
        [initialFields.set 2 { dirty := true, value := .F02 17 }] := by
  decide

theorem dirtyAt_stage (fields : List PGN128006_Field) (f k : Nat) (v : PGN128006_Value) :
    dirtyAt (stage fields f v) k ↔ dirtyAt fields k ∨ (k = f ∧ k < fields.length) := by
  unfold dirtyAt stage
  rw [List.getElem?_set]
  by_cases hfk : f = k
  · subst hfk
    by_cases hlt : f < fields.length
    · simp [hlt]
    · simp [hlt]
      intro e he
      have := List.getElem?_eq_none (Nat.le_of_not_lt hlt)
      simp [this] at he
  · have hkf : ¬ k = f := fun h => hfk h.symm
    simp [hfk, hkf]

theorem stagePair_length (fields : List PGN128006_Field) (p : ParameterPair) :
    (stagePair fields p).length = fields.length := by
  unfold stagePair stage
  split <;> simp

theorem foldl_stagePair_length (pairs : List ParameterPair) :
    ∀ fields : List PGN128006_Field, (pairs.foldl stagePair fields).length = fields.length := by
  induction pairs with
  | nil => intro fields; rfl
  | cons p ps ih => intro fields; simp [ih, stagePair_length]

theorem foldl_stagePair_dirtyAt (pairs : List ParameterPair) :
    ∀ fields : List PGN128006_Field, (∀ p ∈ pairs, ∃ v, p.outcome = .Ok v) →
      ∀ k, dirtyAt (pairs.foldl stagePair fields) k ↔
        dirtyAt fields k ∨ (k < fields.length ∧ ∃ p ∈ pairs, p.field = k) := by
  induction pairs with
  | nil => intro fields _ k; simp
  | cons p ps ih =>
    intro fields hok k
    obtain ⟨v, hv⟩ := hok p (List.mem_cons_self _ _)
    have hps : ∀ q ∈ ps, ∃ v, q.outcome = .Ok v := fun q hq => hok q (List.mem_cons_of_mem _ hq)
    rw [List.foldl_cons, ih _ hps k, stagePair_length]
    have hst : stagePair fields p = stage fields p.field v := by simp [stagePair, hv]
    rw [hst, dirtyAt_stage]
    constructor
    · rintro ((h | ⟨rfl, hlt⟩) | ⟨hlt, q, hq, rfl⟩)
      · exact Or.inl h
      · exact Or.inr ⟨hlt, p, List.mem_cons_self _ _, rfl⟩
      · exact Or.inr ⟨hlt, q, List.mem_cons_of_mem _ hq, rfl⟩
    · rintro (h | ⟨hlt, q, hq, rfl⟩)
      · exact Or.inl (Or.inl h)
      · rcases List.mem_cons.1 hq with rfl | hq
        · exact Or.inl (Or.inr ⟨rfl, hlt⟩)
        · exact Or.inr ⟨hlt, q, hq, rfl⟩

theorem not_dirtyAt_initialFields (k : Nat) : ¬ dirtyAt initialFields k := by
  unfold dirtyAt initialFields
  rintro ⟨e, he, hd⟩
  rw [List.getElem?_replicate] at he
  split at he
  · simp at he; subst he; simp at hd
  · simp at he

/-- C4: when every pair of the command has a supported field index (2 to 9)
and a value in range, HandleCommand invokes the update function exactly once,
the array handed over has its entry k dirty exactly when some pair of the
input has field index k, and every per-pair code of the acknowledgment is
Acknowledge.  The command with zero pairs is included. -/
theorem HandleCommand_clean_command_updates_once (lib : N2kLibrary) (N2kMsg : tN2kMsg)
    (PrioritySetting NumberOfParameterPairs : Nat) (iDev : Int)
    (h : ∀ p ∈ pairsOf lib N2kMsg NumberOfParameterPairs,
      supported p.field ∧
        ¬ (p.field = 3 ∧ 4 ≤ p.valueByte lib N2kMsg % 16) ∧
        ¬ (p.field = 5 ∧ p.valueByte lib N2kMsg % 4 = 3)) :
    ∃ fields ack,
      (HandleCommand lib N2kMsg PrioritySetting NumberOfParameterPairs iDev).updated = [fields] ∧
      (HandleCommand lib N2kMsg PrioritySetting NumberOfParameterPairs iDev).sent = [(ack, iDev)] ∧
      (∀ k, dirtyAt fields k ↔ ∃ p ∈ pairsOf lib N2kMsg NumberOfParameterPairs, p.field = k) ∧
      (∀ e ∈ ack.Parameters, e.2 = N2kgfpec_Acknowledge) ∧
      ack.Parameters.length = NumberOfParameterPairs := by
  have hok : ∀ p ∈ pairsOf lib N2kMsg NumberOfParameterPairs, ∃ v, p.outcome = .Ok v := by
    intro p hp
    obtain ⟨hs, h3, h5⟩ := h p hp
    rcases mem_pairsOf_cases lib N2kMsg _ p hp with hv | hout | hinv
    · exact hv
    · rcases (mem_pairsOf_outOfRange_iff lib N2kMsg _ p hp).1 hout with hb | hb
      · exact absurd hb h3
      · exact absurd hb h5
    · exact absurd hs ((mem_pairsOf_invalid_iff lib N2kMsg _ p hp).1 hinv)
  have hlen : (pairsOf lib N2kMsg NumberOfParameterPairs).length = NumberOfParameterPairs :=
    commandPairs_length _ _ _ _
  have hgate : (pairsOf lib N2kMsg NumberOfParameterPairs).all keepsGate = true := by
    rw [List.all_eq_true]
    intro p hp
    obtain ⟨v, hv⟩ := hok p hp
    simp [keepsGate, hv]
  refine ⟨(HandleCommand.final lib N2kMsg PrioritySetting NumberOfParameterPairs).fields,
    (HandleCommand.final lib N2kMsg PrioritySetting NumberOfParameterPairs).N2kRMsg,
    ?_, rfl, ?_, ?_, ?_⟩
  · simp [HandleCommand, final_canUpdate, hgate]
  · intro k
    rw [final_fields, foldl_stagePair_dirtyAt _ _ hok k]
    constructor
    · rintro (hd | ⟨_, hp⟩)
      · exact absurd hd (not_dirtyAt_initialFields k)
      · exact hp
    · rintro ⟨p, hp, rfl⟩
      refine Or.inr ⟨?_, p, hp, rfl⟩
      have := (h p hp).1
      unfold supported at this
      simp [initialFields]
      omega
  · intro e he
    rw [final_Parameters] at he
    have h2 := (List.of_mem_zip he).2
    rw [List.mem_map] at h2
    obtain ⟨p, hp, hpe⟩ := h2
    obtain ⟨v, hv⟩ := hok p hp
    rw [← hpe, hv]
    rfl
  · simp [final_Parameters, hlen]

/-- C4 at a concrete command: the pairs (2, value 17), (3, value 0x21) and
(9, value 10000); the entries 2, 3 and 9 are handed over dirty. -/
theorem HandleCommand_clean_command_updates_once_witness :
    (∀ p ∈ pairsOf simpleLibrary ⟨7, 255, [2, 17, 3, 0x21, 9, 0x10, 0x27]⟩ 3,
      supported p.field ∧
        ¬ (p.field = 3 ∧ 4 ≤ p.valueByte simpleLibrary ⟨7, 255, [2, 17, 3, 0x21, 9, 0x10, 0x27]⟩ % 16) ∧
        ¬ (p.field = 5 ∧ p.valueByte simpleLibrary ⟨7, 255, [2, 17, 3, 0x21, 9, 0x10, 0x27]⟩ % 4 = 3)) ∧
    ∃ fields ack,
      (HandleCommand simpleLibrary ⟨7, 255, [2, 17, 3, 0x21, 9, 0x10, 0x27]⟩ 8 3 0).updated = [fields] ∧
      (HandleCommand simpleLibrary ⟨7, 255, [2, 17, 3, 0x21, 9, 0x10, 0x27]⟩ 8 3 0).sent = [(ack, 0)] ∧
      (∀ k, dirtyAt fields k ↔
        ∃ p ∈ pairsOf simpleLibrary ⟨7, 255, [2, 17, 3, 0x21, 9, 0x10, 0x27]⟩ 3, p.field = k) ∧
      (∀ e ∈ ack.Parameters, e.2 = N2kgfpec_Acknowledge) ∧
      ack.Parameters.length = 3 :=
  have h : ∀ p ∈ pairsOf simpleLibrary ⟨7, 255, [2, 17, 3, 0x21, 9, 0x10, 0x27]⟩ 3,
      supported p.field ∧
        ¬ (p.field = 3 ∧ 4 ≤ p.valueByte simpleLibrary ⟨7, 255, [2, 17, 3, 0x21, 9, 0x10, 0x27]⟩ % 16) ∧
        ¬ (p.field = 5 ∧ p.valueByte simpleLibrary ⟨7, 255, [2, 17, 3, 0x21, 9, 0x10, 0x27]⟩ % 4 = 3) := by
    decide
  ⟨h, HandleCommand_clean_command_updates_once simpleLibrary
    ⟨7, 255, [2, 17, 3, 0x21, 9, 0x10, 0x27]⟩ 8 3 0 h⟩

theorem pairAt_outcome_field3 (lib : N2kLibrary) (m : tN2kMsg) (c : Int)
    (h : (pairAt lib m c).field = 3) :
    (pairAt lib m c).outcome = decodeDirection ((pairAt lib m c).valueByte lib m) := by
  unfold pairAt ParameterPair.valueByte at *
  simp only at h
  simp [h, FieldCodec]

theorem pairAt_outcome_field5 (lib : N2kLibrary) (m : tN2kMsg) (c : Int)
    (h : (pairAt lib m c).field = 5) :
    (pairAt lib m c).outcome = decodeRetract ((pairAt lib m c).valueByte lib m) := by
  unfold pairAt ParameterPair.valueByte at *
  simp only at h
  simp [h, FieldCodec]

theorem decodeDirection_mod (b : Nat) : decodeDirection (b % 16) = decodeDirection b := by
  simp [decodeDirection]

theorem decodeRetract_mod (b : Nat) : decodeRetract (b % 4) = decodeRetract b := by
  simp [decodeRetract]

/-- C5: the loop body of HandleCommand on a pair with field index 3 and value
byte b.  With b % 16 = 0, 1, 2, 3 it stages Off, ThrusterReady, ThrusterToPORT,
ThrusterToSTARBOARD at entry 3, leaves the gate and adds code Acknowledge;
with b % 16 from 4 to 15 it adds code ParameterOutOfRange, stages nothing and
closes the gate.  Two field-3 pairs
whose value bytes agree in the low nibble, met in the same state of the
locals, leave the same staging array, gate and acknowledgment: the high
nibble does not matter. -/
theorem HandleCommand_field3_decode (lib : N2kLibrary) (m : tN2kMsg) (i : Nat) (s : CommandLoop)
    (h3 : (pairAt lib m s.Index).field = 3) :
    ((pairAt lib m s.Index).valueByte lib m % 16 = 0 →
      (HandleCommand.pair lib m i s).fields =
        s.fields.set 3 { dirty := true, value := .F03 N2kDD473_OFF } ∧
      (HandleCommand.pair lib m i s).canUpdate = s.canUpdate ∧
      (HandleCommand.pair lib m i s).N2kRMsg =
        { s.N2kRMsg with Parameters := s.N2kRMsg.Parameters ++ [(i, N2kgfpec_Acknowledge)] }) ∧
    ((pairAt lib m s.Index).valueByte lib m % 16 = 1 →
      (HandleCommand.pair lib m i s).fields =
        s.fields.set 3 { dirty := true, value := .F03 N2kDD473_ThrusterReady } ∧
      (HandleCommand.pair lib m i s).canUpdate = s.canUpdate ∧
      (HandleCommand.pair lib m i s).N2kRMsg =
        { s.N2kRMsg with Parameters := s.N2kRMsg.Parameters ++ [(i, N2kgfpec_Acknowledge)] }) ∧
    ((pairAt lib m s.Index).valueByte lib m % 16 = 2 →
      (HandleCommand.pair lib m i s).fields =
        s.fields.set 3 { dirty := true, value := .F03 N2kDD473_ThrusterToPORT } ∧
      (HandleCommand.pair lib m i s).canUpdate = s.canUpdate ∧
      (HandleCommand.pair lib m i s).N2kRMsg =
        { s.N2kRMsg with Parameters := s.N2kRMsg.Parameters ++ [(i, N2kgfpec_Acknowledge)] }) ∧
    ((pairAt lib m s.Index).valueByte lib m % 16 = 3 →
      (HandleCommand.pair lib m i s).fields =
        s.fields.set 3 { dirty := true, value := .F03 N2kDD473_ThrusterToSTARBOARD } ∧
      (HandleCommand.pair lib m i s).canUpdate = s.canUpdate ∧
      (HandleCommand.pair lib m i s).N2kRMsg =
        { s.N2kRMsg with Parameters := s.N2kRMsg.Parameters ++ [(i, N2kgfpec_Acknowledge)] }) ∧
    (4 ≤ (pairAt lib m s.Index).valueByte lib m % 16 →
      (HandleCommand.pair lib m i s).fields = s.fields ∧
      (HandleCommand.pair lib m i s).canUpdate = false ∧
      (HandleCommand.pair lib m i s).N2kRMsg =
        { s.N2kRMsg with Parameters := s.N2kRMsg.Parameters ++ [(i, N2kgfpec_RequestOrCommandParameterOutOfRange)] }) ∧
    (∀ (m2 : tN2kMsg) (s2 : CommandLoop), (pairAt lib m2 s2.Index).field = 3 →
      (pairAt lib m2 s2.Index).valueByte lib m2 % 16 = (pairAt lib m s.Index).valueByte lib m % 16 →
      s2.fields = s.fields → s2.canUpdate = s.canUpdate → s2.N2kRMsg = s.N2kRMsg →
      (HandleCommand.pair lib m2 i s2).fields = (HandleCommand.pair lib m i s).fields ∧
      (HandleCommand.pair lib m2 i s2).canUpdate = (HandleCommand.pair lib m i s).canUpdate ∧
      (HandleCommand.pair lib m2 i s2).N2kRMsg = (HandleCommand.pair lib m i s).N2kRMsg) := by
  have ho := pairAt_outcome_field3 lib m s.Index h3
  rw [pair_eq]
  simp only [stagePair, stage, keepsGate, AddAcknowledgeParameter, ho, h3]
  refine ⟨?_, ?_, ?_, ?_, ?_, ?_⟩
  · intro hb; simp [decodeDirection, hb, Decoded.code]
  · intro hb; simp [decodeDirection, hb, Decoded.code]
  · intro hb; simp [decodeDirection, hb, Decoded.code]
  · intro hb; simp [decodeDirection, hb, Decoded.code]
  · intro hb
    have := (decodeDirection_outOfRange_iff ((pairAt lib m s.Index).valueByte lib m)).2 hb
    simp [this, Decoded.code]
  · intro m2 s2 h32 hb hf hc hr
    have ho2 := pairAt_outcome_field3 lib m2 s2.Index h32
    rw [pair_eq]
    simp only [stagePair, stage, keepsGate, AddAcknowledgeParameter, ho, ho2, h32, h3, hf, hc, hr]
    rw [← decodeDirection_mod ((pairAt lib m2 s2.Index).valueByte lib m2), hb, decodeDirection_mod]
    exact ⟨rfl, rfl, rfl⟩

/-- C5 at a concrete pair: field 3 with value byte 0x21 stages ThrusterReady,
as value byte 0x01 does. -/
theorem HandleCommand_field3_decode_witness :
    (pairAt simpleLibrary ⟨7, 255, [3, 0x21]⟩
        (HandleCommand.start simpleLibrary ⟨7, 255, [3, 0x21]⟩ 8 1).Index).field = 3 ∧
      (HandleCommand.pair simpleLibrary ⟨7, 255, [3, 0x21]⟩ 0
        (HandleCommand.start simpleLibrary ⟨7, 255, [3, 0x21]⟩ 8 1)).fields =
        (HandleCommand.start simpleLibrary ⟨7, 255, [3, 0x21]⟩ 8 1).fields.set 3
          { dirty := true, value := .F03 N2kDD473_ThrusterReady } :=
  ⟨by decide,
    ((HandleCommand_field3_decode simpleLibrary ⟨7, 255, [3, 0x21]⟩ 0
      (HandleCommand.start simpleLibrary ⟨7, 255, [3, 0x21]⟩ 8 1) (by decide)).2.1 (by decide)).1⟩

/-- C6: the loop body of HandleCommand on a pair with field index 5 and value
byte b.  With b % 4 = 0, 1, 2 it stages Off, Extend, Retract at entry 5, leaves
the gate and adds code Acknowledge; with b % 4 = 3 it adds code
ParameterOutOfRange, stages nothing and closes the gate.  Two field-5 pairs
whose value bytes agree in the low two bits, met in the same state of the
locals, leave the same staging array, gate and acknowledgment. -/
theorem HandleCommand_field5_decode (lib : N2kLibrary) (m : tN2kMsg) (i : Nat) (s : CommandLoop)
    (h5 : (pairAt lib m s.Index).field = 5) :
    ((pairAt lib m s.Index).valueByte lib m % 4 = 0 →
      (HandleCommand.pair lib m i s).fields =
        s.fields.set 5 { dirty := true, value := .F05 N2kDD474_OFF } ∧
      (HandleCommand.pair lib m i s).canUpdate = s.canUpdate ∧
      (HandleCommand.pair lib m i s).N2kRMsg =
        { s.N2kRMsg with Parameters := s.N2kRMsg.Parameters ++ [(i, N2kgfpec_Acknowledge)] }) ∧
    ((pairAt lib m s.Index).valueByte lib m % 4 = 1 →
      (HandleCommand.pair lib m i s).fields =
        s.fields.set 5 { dirty := true, value := .F05 N2kDD474_Extend } ∧
      (HandleCommand.pair lib m i s).canUpdate = s.canUpdate ∧
      (HandleCommand.pair lib m i s).N2kRMsg =
        { s.N2kRMsg with Parameters := s.N2kRMsg.Parameters ++ [(i, N2kgfpec_Acknowledge)] }) ∧
    ((pairAt lib m s.Index).valueByte lib m % 4 = 2 →
      (HandleCommand.pair lib m i s).fields =
        s.fields.set 5 { dirty := true, value := .F05 N2kDD474_Retract } ∧
      (HandleCommand.pair lib m i s).canUpdate = s.canUpdate ∧
      (HandleCommand.pair lib m i s).N2kRMsg =
        { s.N2kRMsg with Parameters := s.N2kRMsg.Parameters ++ [(i, N2kgfpec_Acknowledge)] }) ∧
    ((pairAt lib m s.Index).valueByte lib m % 4 = 3 →
      (HandleCommand.pair lib m i s).fields = s.fields ∧
      (HandleCommand.pair lib m i s).canUpdate = false ∧
      (HandleCommand.pair lib m i s).N2kRMsg =
        { s.N2kRMsg with Parameters := s.N2kRMsg.Parameters ++ [(i, N2kgfpec_RequestOrCommandParameterOutOfRange)] }) ∧
    (∀ (m2 : tN2kMsg) (s2 : CommandLoop), (pairAt lib m2 s2.Index).field = 5 →
      (pairAt lib m2 s2.Index).valueByte lib m2 % 4 = (pairAt lib m s.Index).valueByte lib m % 4 →
      s2.fields = s.fields → s2.canUpdate = s.canUpdate → s2.N2kRMsg = s.N2kRMsg →
      (HandleCommand.pair lib m2 i s2).fields = (HandleCommand.pair lib m i s).fields ∧
      (HandleCommand.pair lib m2 i s2).canUpdate = (HandleCommand.pair lib m i s).canUpdate ∧
      (HandleCommand.pair lib m2 i s2).N2kRMsg = (HandleCommand.pair lib m i s).N2kRMsg) := by
  have ho := pairAt_outcome_field5 lib m s.Index h5
  rw [pair_eq]
  simp only [stagePair, stage, keepsGate, AddAcknowledgeParameter, ho, h5]
  refine ⟨?_, ?_, ?_, ?_, ?_⟩
  · intro hb; simp [decodeRetract, hb, Decoded.code]
  · intro hb; simp [decodeRetract, hb, Decoded.code]
  · intro hb; simp [decodeRetract, hb, Decoded.code]
  · intro hb
    have := (decodeRetract_outOfRange_iff ((pairAt lib m s.Index).valueByte lib m)).2 hb
    simp [this, Decoded.code]
  · intro m2 s2 h52 hb hf hc hr
    have ho2 := pairAt_outcome_field5 lib m2 s2.Index h52
    rw [pair_eq]
    simp only [stagePair, stage, keepsGate, AddAcknowledgeParameter, ho, ho2, h52, h5, hf, hc, hr]
    rw [← decodeRetract_mod ((pairAt lib m2 s2.Index).valueByte lib m2), hb, decodeRetract_mod]
    exact ⟨rfl, rfl, rfl⟩

/-- C6 at a concrete pair: field 5 with value byte 0x07 (low two bits 3) is
out of range and closes the gate. -/
theorem HandleCommand_field5_decode_witness :
    (pairAt simpleLibrary ⟨7, 255, [5, 0x07]⟩
        (HandleCommand.start simpleLibrary ⟨7, 255, [5, 0x07]⟩ 8 1).Index).field = 5 ∧
      (HandleCommand.pair simpleLibrary ⟨7, 255, [5, 0x07]⟩ 0
        (HandleCommand.start simpleLibrary ⟨7, 255, [5, 0x07]⟩ 8 1)).canUpdate = false :=
  ⟨by decide,
    ((HandleCommand_field5_decode simpleLibrary ⟨7, 255, [5, 0x07]⟩ 0
      (HandleCommand.start simpleLibrary ⟨7, 255, [5, 0x07]⟩ 8 1) (by decide)).2.2.2.1
        (by decide)).2.1⟩

/-! ## The pair loop of HandleRequest -/

theorem request_pair_found (lib : N2kLibrary) (m : tN2kMsg) (i : Nat) (s : RequestLoop)
    (hf : s.FoundInvalidField = true) :
    HandleRequest.pair lib m i s =
      { s with
        FieldErrorCode := N2kgfpec_TemporarilyUnableToComply
        N2kRMsg := AddAcknowledgeParameter s.N2kRMsg i N2kgfpec_TemporarilyUnableToComply } := by
  simp [HandleRequest.pair, HandleRequest.check, hf]

theorem request_check_supported (lib : N2kLibrary) (m : tN2kMsg) (s : RequestLoop)
    (hf : s.FoundInvalidField = false) (hs : supported ((lib.GetByte m s.index).1 % 256)) :
    HandleRequest.check lib m s = { s with index := (lib.GetByte m s.index).2 } := by
  unfold HandleRequest.check
  simp only [hf, Bool.not_false, reduceIte]
  generalize (lib.GetByte m s.index).1 % 256 = f at hs
  rcases field_cases f with rfl | rfl | rfl | rfl | rfl | rfl | rfl | rfl | h
  all_goals first | rfl | exact absurd hs h

theorem request_check_unsupported (lib : N2kLibrary) (m : tN2kMsg) (s : RequestLoop)
    (hf : s.FoundInvalidField = false) (hs : ¬ supported ((lib.GetByte m s.index).1 % 256)) :
    HandleRequest.check lib m s =
      { s with
        index := (lib.GetByte m s.index).2
        FieldErrorCode := N2kgfpec_InvalidRequestOrCommandParameterField
        MatchFilter := false
        FoundInvalidField := true } := by
  unfold HandleRequest.check
  simp only [hf, Bool.not_false, reduceIte]
  generalize (lib.GetByte m s.index).1 % 256 = f at hs
  split <;> first | rfl | exact absurd (by unfold supported; omega) hs

theorem request_pair_supported (lib : N2kLibrary) (m : tN2kMsg) (i : Nat) (s : RequestLoop)
    (hf : s.FoundInvalidField = false) (hs : supported ((lib.GetByte m s.index).1 % 256)) :
    HandleRequest.pair lib m i s =
      { s with
        index := (lib.GetByte m s.index).2
        N2kRMsg := AddAcknowledgeParameter s.N2kRMsg i s.FieldErrorCode } := by
  unfold HandleRequest.pair
  rw [request_check_supported lib m s hf hs]

theorem request_pair_unsupported (lib : N2kLibrary) (m : tN2kMsg) (i : Nat) (s : RequestLoop)
    (hf : s.FoundInvalidField = false) (hs : ¬ supported ((lib.GetByte m s.index).1 % 256)) :
    HandleRequest.pair lib m i s =
      { s with
        index := (lib.GetByte m s.index).2
        FieldErrorCode := N2kgfpec_InvalidRequestOrCommandParameterField
        MatchFilter := false
        FoundInvalidField := true
        N2kRMsg := AddAcknowledgeParameter s.N2kRMsg i
          N2kgfpec_InvalidRequestOrCommandParameterField } := by
  unfold HandleRequest.pair
  rw [request_check_unsupported lib m s hf hs]

theorem request_loop_after_invalid (lib : N2kLibrary) (m : tN2kMsg) :
    ∀ (count i : Nat) (s : RequestLoop), s.FoundInvalidField = true → s.MatchFilter = false →
      (HandleRequest.loop lib m count i s).N2kRMsg.Parameters =
        s.N2kRMsg.Parameters ++
          if lib.IsBroadcast m.Destination then
            (List.range' i count).map fun j => (j, N2kgfpec_TemporarilyUnableToComply)
          else [] := by
  intro count
  induction count with
  | zero => intro i s _ _; simp [HandleRequest.loop]
  | succ c ih =>
    intro i s hf hm
    unfold HandleRequest.loop
    by_cases hb : lib.IsBroadcast m.Destination = true
    · simp only [hm, hb, Bool.false_or, if_true]
      rw [ih (i + 1) _ (by rw [request_pair_found lib m i s hf]; exact hf)
        (by rw [request_pair_found lib m i s hf]; exact hm)]
      rw [request_pair_found lib m i s hf]
      simp [hb, AddAcknowledgeParameter, List.range'_succ]
    · simp [hm, hb]

theorem request_loop_first_invalid (lib : N2kLibrary) (m : tN2kMsg) :
    ∀ (k count i : Nat) (s : RequestLoop), s.FoundInvalidField = false → s.MatchFilter = true →
      k < count →
      (∀ j, j < k → ∃ f, (requestedFields lib m count s.index)[j]? = some f ∧ supported f) →
      (∃ f, (requestedFields lib m count s.index)[k]? = some f ∧ ¬ supported f) →
      (HandleRequest.loop lib m count i s).N2kRMsg.Parameters =
        s.N2kRMsg.Parameters ++
          (List.range' i (if lib.IsBroadcast m.Destination then count else k + 1)).map
            fun j => (j, requestCode s.FieldErrorCode (i + k) j) := by
  intro k
  induction k with
  | zero =>
    intro count i s hf hm hk _ hinv
    obtain ⟨c, rfl⟩ : ∃ c, count = c + 1 := ⟨count - 1, by omega⟩
    obtain ⟨f, hf0, hns⟩ := hinv
    simp [requestedFields] at hf0
    subst hf0
    unfold HandleRequest.loop
    simp only [hm, Bool.true_or, if_true]
    rw [request_loop_after_invalid lib m c (i + 1) _
      (by rw [request_pair_unsupported lib m i s hf hns])
      (by rw [request_pair_unsupported lib m i s hf hns])]
    rw [request_pair_unsupported lib m i s hf hns]
    by_cases hb : lib.IsBroadcast m.Destination = true
    · simp only [hb, if_true, AddAcknowledgeParameter, List.range'_succ, List.map_cons,
        List.append_assoc, List.singleton_append]
      congr 2
      · simp [requestCode]
      · apply List.map_congr_left
        intro j hj
        rw [List.mem_range'_1] at hj
        have h1 : ¬ j < i := by omega
        have h2 : ¬ j = i := by omega
        simp [requestCode, h1, h2]
    · simp [hb, AddAcknowledgeParameter, requestCode]
  | succ k ih =>
    intro count i s hf hm hk hval hinv
    obtain ⟨c, rfl⟩ : ∃ c, count = c + 1 := ⟨count - 1, by omega⟩
    have hs : supported ((lib.GetByte m s.index).1 % 256) := by
      obtain ⟨f, hf0, hsf⟩ := hval 0 (by omega)
      simp [requestedFields] at hf0
      rw [hf0]; exact hsf
    unfold HandleRequest.loop
    simp only [hm, Bool.true_or, if_true]
    have hp := request_pair_supported lib m i s hf hs
    rw [ih c (i + 1) (HandleRequest.pair lib m i s) (by rw [hp]; exact hf) (by rw [hp]; exact hm)
      (by omega)
      (by
        intro j hj
        have := hval (j + 1) (by omega)
        rw [hp]
        simpa [requestedFields] using this)
      (by
        rw [hp]
        simpa [requestedFields] using hinv)]
    rw [hp]
    have hcode : requestCode s.FieldErrorCode (i + (k + 1)) i = s.FieldErrorCode := by
      simp [requestCode]
    have hik : i + 1 + k = i + (k + 1) := by omega
    by_cases hb : lib.IsBroadcast m.Destination = true
    · simp [hb, AddAcknowledgeParameter, List.range'_succ, hcode, hik]
    · simp [hb, AddAcknowledgeParameter, List.range'_succ, hcode, hik]

theorem HandleRequest_Parameters (lib : N2kLibrary) (PGN : Nat)
    (u : tN2kGroupFunctionParameterErrorCode) (m : tN2kMsg) (ti tio n : Nat) (iDev : Int)
    (k : Nat) (hk : k < n)
    (hval : ∀ j, j < k → ∃ f, (fieldsOf lib m n)[j]? = some f ∧ supported f)
    (hinv : ∃ f, (fieldsOf lib m n)[k]? = some f ∧ ¬ supported f) :
    (HandleRequest lib PGN u m ti tio n iDev).N2kRMsg.Parameters =
      (List.range (if lib.IsBroadcast m.Destination then n else k + 1)).map
        fun j => (j, requestCode u k j) := by
  have hn : n > 0 := by omega
  unfold HandleRequest
  simp only [hn, if_true]
  rw [request_loop_first_invalid lib m k n 0
    { index := lib.StartParseRequestPairParameters m
      FieldErrorCode := u
      MatchFilter := true
      FoundInvalidField := false
      N2kRMsg := HandleRequest.envelope lib PGN m ti n } rfl rfl hk hval hinv]
  simp [HandleRequest.envelope, SetStartAcknowledge, List.range_eq_range']

/-! ## Properties of HandleRequest -/

/-- C7 at a failing input: the broadcast request with the field indices
2, 99, 3, entered while the local `FieldErrorCode` holds the bit pattern of
InvalidField.  Index 2 is supported and no invalid index has been seen, yet
the code added at position 0 is not Acknowledge: the cases 2 to 9 assign
nothing to `FieldErrorCode`. -/
theorem HandleRequest_supported_index_not_acknowledged :
    fieldsOf simpleLibrary ⟨7, 255, [2, 99, 3]⟩ 3 = [2, 99, 3] ∧
      (HandleRequest simpleLibrary 128006 N2kgfpec_InvalidRequestOrCommandParameterField
        ⟨7, 255, [2, 99, 3]⟩ 0 0 3 0).N2kRMsg.Parameters =
        [(0, N2kgfpec_InvalidRequestOrCommandParameterField),
         (1, N2kgfpec_InvalidRequestOrCommandParameterField),
         (2, N2kgfpec_TemporarilyUnableToComply)] := by
  decide

/-- C8: when the first field index of a request outside 2 to 9 is at position
k, HandleRequest adds code InvalidField at position k, and every entry it adds
behind position k carries code TemporarilyUnableToComply, whatever the field
indices there are. -/
theorem HandleRequest_sticky_failure (lib : N2kLibrary) (PGN : Nat)
    (uninitialised : tN2kGroupFunctionParameterErrorCode) (N2kMsg : tN2kMsg)
    (TransmissionInterval TransmissionIntervalOffset NumberOfParameterPairs : Nat) (iDev : Int)
    (k : Nat) (hk : k < NumberOfParameterPairs)
    (hval : ∀ j, j < k →
      ∃ f, (fieldsOf lib N2kMsg NumberOfParameterPairs)[j]? = some f ∧ supported f)
    (hinv : ∃ f, (fieldsOf lib N2kMsg NumberOfParameterPairs)[k]? = some f ∧ ¬ supported f) :
    (HandleRequest lib PGN uninitialised N2kMsg TransmissionInterval TransmissionIntervalOffset
        NumberOfParameterPairs iDev).N2kRMsg.Parameters[k]? =
      some (k, N2kgfpec_InvalidRequestOrCommandParameterField) ∧
    ∀ j, k < j →
      j < (HandleRequest lib PGN uninitialised N2kMsg TransmissionInterval
        TransmissionIntervalOffset NumberOfParameterPairs iDev).N2kRMsg.Parameters.length →
      (HandleRequest lib PGN uninitialised N2kMsg TransmissionInterval TransmissionIntervalOffset
        NumberOfParameterPairs iDev).N2kRMsg.Parameters[j]? =
        some (j, N2kgfpec_TemporarilyUnableToComply) := by
  rw [HandleRequest_Parameters lib PGN uninitialised N2kMsg _ _ _ iDev k hk hval hinv]
  constructor
  · have hlt : k < if lib.IsBroadcast N2kMsg.Destination = true then NumberOfParameterPairs
        else k + 1 := by
      split <;> omega
    simp [List.getElem?_range hlt, requestCode]
  · intro j hkj hj
    simp only [List.length_map, List.length_range] at hj
    have h1 : ¬ j < k := by omega
    have h2 : ¬ j = k := by omega
    simp [List.getElem?_range hj, requestCode, h1, h2]

/-- C8 at the broadcast request with the field indices 2, 99, 3: the codes at
positions 1 and 2 are InvalidField and TemporarilyUnableToComply. -/
theorem HandleRequest_sticky_failure_witness :
    (HandleRequest simpleLibrary 128006 N2kgfpec_Acknowledge
        ⟨7, 255, [2, 99, 3]⟩ 0 0 3 0).N2kRMsg.Parameters[1]? =
      some (1, N2kgfpec_InvalidRequestOrCommandParameterField) ∧
    (HandleRequest simpleLibrary 128006 N2kgfpec_Acknowledge
        ⟨7, 255, [2, 99, 3]⟩ 0 0 3 0).N2kRMsg.Parameters[2]? =
      some (2, N2kgfpec_TemporarilyUnableToComply) :=
  have h := HandleRequest_sticky_failure simpleLibrary 128006 N2kgfpec_Acknowledge
    ⟨7, 255, [2, 99, 3]⟩ 0 0 3 0 1 (by decide) (by decide) (by decide)
  ⟨h.1, h.2 2 (by decide) (by decide)⟩

/-- C9: when the first field index of a request outside 2 to 9 is at position
k, a request to a unicast destination gets codes for the positions 0 to k and
for no position behind k, and a request to a broadcast destination gets codes
for all positions 0 to NumberOfParameterPairs - 1. -/
theorem HandleRequest_positions (lib : N2kLibrary) (PGN : Nat)
    (uninitialised : tN2kGroupFunctionParameterErrorCode) (N2kMsg : tN2kMsg)
    (TransmissionInterval TransmissionIntervalOffset NumberOfParameterPairs : Nat) (iDev : Int)
    (k : Nat) (hk : k < NumberOfParameterPairs)
    (hval : ∀ j, j < k →
      ∃ f, (fieldsOf lib N2kMsg NumberOfParameterPairs)[j]? = some f ∧ supported f)
    (hinv : ∃ f, (fieldsOf lib N2kMsg NumberOfParameterPairs)[k]? = some f ∧ ¬ supported f) :
    (lib.IsBroadcast N2kMsg.Destination = false →
      (HandleRequest lib PGN uninitialised N2kMsg TransmissionInterval TransmissionIntervalOffset
        NumberOfParameterPairs iDev).N2kRMsg.Parameters.map Prod.fst = List.range (k + 1)) ∧
    (lib.IsBroadcast N2kMsg.Destination = true →
      (HandleRequest lib PGN uninitialised N2kMsg TransmissionInterval TransmissionIntervalOffset
        NumberOfParameterPairs iDev).N2kRMsg.Parameters.map Prod.fst =
        List.range NumberOfParameterPairs) := by
  rw [HandleRequest_Parameters lib PGN uninitialised N2kMsg _ _ _ iDev k hk hval hinv]
  constructor
  · intro hb
    simp [hb, List.map_map, Function.comp_def]
  · intro hb
    simp [hb, List.map_map, Function.comp_def]

/-- C9 at the request with the field indices 2, 99, 3: sent to the unicast
address 12 it gets codes for the positions 0 and 1 only, sent to the broadcast
address 255 it gets codes for the positions 0, 1 and 2. -/
theorem HandleRequest_positions_witness :
    (HandleRequest simpleLibrary 128006 N2kgfpec_Acknowledge
        ⟨7, 12, [2, 99, 3]⟩ 0 0 3 0).N2kRMsg.Parameters.map Prod.fst = List.range (1 + 1) ∧
    (HandleRequest simpleLibrary 128006 N2kgfpec_Acknowledge
        ⟨7, 255, [2, 99, 3]⟩ 0 0 3 0).N2kRMsg.Parameters.map Prod.fst = List.range 3 :=
  ⟨(HandleRequest_positions simpleLibrary 128006 N2kgfpec_Acknowledge
      ⟨7, 12, [2, 99, 3]⟩ 0 0 3 0 1 (by decide) (by decide) (by decide)).1 (by decide),
    (HandleRequest_positions simpleLibrary 128006 N2kgfpec_Acknowledge
      ⟨7, 255, [2, 99, 3]⟩ 0 0 3 0 1 (by decide) (by decide) (by decide)).2 (by decide)⟩

/-- C10 at a failing input: the broadcast request for field 2.  HandleRequest
builds the envelope for the source of the request and makes no `SendMsg` call;
HandleCommand on the command with the pair (2, value 17) makes one. -/
theorem HandleRequest_sends_nothing :
    (HandleRequest simpleLibrary 128006 N2kgfpec_Acknowledge ⟨7, 255, [2]⟩ 0 0 1 0).N2kRMsg.Destination = 7 ∧
      (HandleRequest simpleLibrary 128006 N2kgfpec_Acknowledge ⟨7, 255, [2]⟩ 0 0 1 0).sent = [] ∧
      (HandleCommand simpleLibrary ⟨7, 255, [2, 17]⟩ 8 1 0).sent.length = 1 := by
  decide

/-- For every request HandleRequest makes no `SendMsg` call. -/
theorem HandleRequest_sent (lib : N2kLibrary) (PGN : Nat)
    (uninitialised : tN2kGroupFunctionParameterErrorCode) (N2kMsg : tN2kMsg)
    (TransmissionInterval TransmissionIntervalOffset NumberOfParameterPairs : Nat) (iDev : Int) :
    (HandleRequest lib PGN uninitialised N2kMsg TransmissionInterval TransmissionIntervalOffset
      NumberOfParameterPairs iDev).sent = [] := by
  unfold HandleRequest
  split <;> rfl

/-! ## The priority check of HandleCommand -/

theorem loop_envelope (lib : N2kLibrary) (m : tN2kMsg) :
    ∀ (count i : Nat) (s : CommandLoop),
      (HandleCommand.loop lib m count i s).N2kRMsg =
        { s.N2kRMsg with
          Parameters := (HandleCommand.loop lib m count i s).N2kRMsg.Parameters } := by
  intro count
  induction count with
  | zero => intro i s; rfl
  | succ k ih =>
    intro i s
    rw [HandleCommand.loop, ih, pair_eq]
    rfl

theorem final_envelope (lib : N2kLibrary) (m : tN2kMsg) (prio n : Nat) :
    (HandleCommand.final lib m prio n).N2kRMsg =
      { Destination := m.Source
        PGN := 128006
        PGNErrorCode := N2kgfPGNec_Acknowledge
        TransmissionOrPriorityErrorCode := HandleCommand.pec prio
        NumberOfParameterPairs := n
        Parameters := (List.range' 0 n).zip ((pairsOf lib m n).map fun p => p.outcome.code) } := by
  rw [← final_Parameters lib m prio n]
  unfold HandleCommand.final
  rw [loop_envelope]
  rfl

/-- C11 at failing inputs: HandleCommand called with PrioritySetting 8, 9 and
15, the three values of the valid set, on the command with the pair
(2, value 17).  The transmission/priority error code of the acknowledgment
sent is TransmitIntervalOrPriorityNotSupported each time, not Acknowledge. -/
theorem HandleCommand_valid_priority_reported_unsupported :
    (HandleCommand simpleLibrary ⟨7, 255, [2, 17]⟩ 8 1 0).sent.map
        (fun a => a.1.TransmissionOrPriorityErrorCode) =
        [N2kgfTPec_TransmitIntervalOrPriorityNotSupported] ∧
      (HandleCommand simpleLibrary ⟨7, 255, [2, 17]⟩ 9 1 0).sent.map
        (fun a => a.1.TransmissionOrPriorityErrorCode) =
        [N2kgfTPec_TransmitIntervalOrPriorityNotSupported] ∧
      (HandleCommand simpleLibrary ⟨7, 255, [2, 17]⟩ 15 1 0).sent.map
        (fun a => a.1.TransmissionOrPriorityErrorCode) =
        [N2kgfTPec_TransmitIntervalOrPriorityNotSupported] := by
  decide

/-- C12: the guard of the priority check of HandleCommand holds for every
PrioritySetting, and the acknowledgment HandleCommand sends carries the
transmission/priority error code TransmitIntervalOrPriorityNotSupported for
every PrioritySetting, every message and every pair count. -/
theorem HandleCommand_priority_guard_always_true (lib : N2kLibrary) (N2kMsg : tN2kMsg)
    (PrioritySetting NumberOfParameterPairs : Nat) (iDev : Int) :
    (PrioritySetting ≠ 0x08 ∨ PrioritySetting ≠ 0x0f ∨ PrioritySetting ≠ 0x09) ∧
      HandleCommand.pec PrioritySetting = N2kgfTPec_TransmitIntervalOrPriorityNotSupported ∧
      ∃ ack, (HandleCommand lib N2kMsg PrioritySetting NumberOfParameterPairs iDev).sent =
          [(ack, iDev)] ∧
        ack.TransmissionOrPriorityErrorCode = N2kgfTPec_TransmitIntervalOrPriorityNotSupported := by
  have hg : PrioritySetting ≠ 0x08 ∨ PrioritySetting ≠ 0x0f ∨ PrioritySetting ≠ 0x09 := by omega
  have hp : HandleCommand.pec PrioritySetting =
      N2kgfTPec_TransmitIntervalOrPriorityNotSupported := by
    unfold HandleCommand.pec
    rw [if_pos hg]
  refine ⟨hg, hp, _, rfl, ?_⟩
  rw [final_envelope, hp]

/-- C13: two runs of HandleCommand on the same message and the same pair count
that differ in PrioritySetting add the same per-pair codes, stage the same
array, leave the same gate and make the same calls of the update function. -/
theorem HandleCommand_priority_does_not_influence_fields (lib : N2kLibrary) (N2kMsg : tN2kMsg)
    (PrioritySetting1 PrioritySetting2 NumberOfParameterPairs : Nat) (iDev : Int) :
    (HandleCommand.final lib N2kMsg PrioritySetting1 NumberOfParameterPairs).N2kRMsg.Parameters =
        (HandleCommand.final lib N2kMsg PrioritySetting2 NumberOfParameterPairs).N2kRMsg.Parameters ∧
      (HandleCommand.final lib N2kMsg PrioritySetting1 NumberOfParameterPairs).fields =
        (HandleCommand.final lib N2kMsg PrioritySetting2 NumberOfParameterPairs).fields ∧
      (HandleCommand.final lib N2kMsg PrioritySetting1 NumberOfParameterPairs).canUpdate =
        (HandleCommand.final lib N2kMsg PrioritySetting2 NumberOfParameterPairs).canUpdate ∧
      (HandleCommand lib N2kMsg PrioritySetting1 NumberOfParameterPairs iDev).sent.map
          (fun a => a.1.Parameters) =
        (HandleCommand lib N2kMsg PrioritySetting2 NumberOfParameterPairs iDev).sent.map
          (fun a => a.1.Parameters) ∧
      (HandleCommand lib N2kMsg PrioritySetting1 NumberOfParameterPairs iDev).updated =
        (HandleCommand lib N2kMsg PrioritySetting2 NumberOfParameterPairs iDev).updated := by
  refine ⟨?_, ?_, ?_, ?_, ?_⟩
  · rw [final_Parameters, final_Parameters]
  · rw [final_fields, final_fields]
  · rw [final_canUpdate, final_canUpdate]
  · simp [HandleCommand, final_Parameters]
  · simp [HandleCommand, final_canUpdate, final_fields]

/-! ## One pass of the loop body of HandleCommand -/

theorem getElem?_stage_of_ne (fields : List PGN128006_Field) (f k : Nat) (v : PGN128006_Value)
    (h : k ≠ f) : (stage fields f v)[k]? = fields[k]? := by
  unfold stage
  rw [List.getElem?_set]
  simp [Ne.symm h]

theorem pairAt_outcome_cases (lib : N2kLibrary) (m : tN2kMsg) (c : Int) :
    (∃ v, (pairAt lib m c).outcome = .Ok v) ∨
      (pairAt lib m c).outcome = .Err N2kgfpec_RequestOrCommandParameterOutOfRange ∨
      (pairAt lib m c).outcome = .Err N2kgfpec_InvalidRequestOrCommandParameterField :=
  FieldCodec_cases lib m _ _

/-- C14: one pass of the loop body of HandleCommand adds the code of the pair
at the cursor to the acknowledgment.  When that code is Acknowledge, the pair
decoded to a value, the array afterwards is the array before with the entry at
the field index of the pair set to dirty with that value, and every other
entry is as before.  When that code is InvalidField or ParameterOutOfRange,
the array afterwards is the array before. -/
theorem HandleCommand_pair_frame (lib : N2kLibrary) (m : tN2kMsg) (i : Nat) (s : CommandLoop) :
    (HandleCommand.pair lib m i s).N2kRMsg =
        AddAcknowledgeParameter s.N2kRMsg i (pairAt lib m s.Index).outcome.code ∧
      ((pairAt lib m s.Index).outcome.code = N2kgfpec_Acknowledge →
        ∃ v, (pairAt lib m s.Index).outcome = .Ok v ∧
          (HandleCommand.pair lib m i s).fields =
            s.fields.set (pairAt lib m s.Index).field { dirty := true, value := v } ∧
          ∀ k, k ≠ (pairAt lib m s.Index).field →
            (HandleCommand.pair lib m i s).fields[k]? = s.fields[k]?) ∧
      ((pairAt lib m s.Index).outcome.code = N2kgfpec_InvalidRequestOrCommandParameterField ∨
          (pairAt lib m s.Index).outcome.code = N2kgfpec_RequestOrCommandParameterOutOfRange →
        (HandleCommand.pair lib m i s).fields = s.fields) := by
  rw [pair_eq]
  refine ⟨rfl, ?_, ?_⟩
  · intro hc
    rcases pairAt_outcome_cases lib m s.Index with ⟨v, hv⟩ | hv | hv
    · refine ⟨v, hv, ?_, ?_⟩
      · simp [stagePair, hv, stage]
      · intro k hk
        simp only [stagePair, hv]
        exact getElem?_stage_of_ne _ _ _ _ hk
    · rw [hv] at hc; simp [Decoded.code] at hc
    · rw [hv] at hc; simp [Decoded.code] at hc
  · intro hc
    rcases pairAt_outcome_cases lib m s.Index with ⟨v, hv⟩ | hv | hv
    · rw [hv] at hc; simp [Decoded.code] at hc
    · simp [stagePair, hv]
    · simp [stagePair, hv]

/-- C14 at concrete pairs: the pair (3, value 4) is out of range and leaves
the array as it was; the pair (2, value 17) sets entry 2. -/
theorem HandleCommand_pair_frame_witness :
    (HandleCommand.pair simpleLibrary ⟨7, 255, [3, 4]⟩ 0
        (HandleCommand.start simpleLibrary ⟨7, 255, [3, 4]⟩ 8 1)).fields =
      (HandleCommand.start simpleLibrary ⟨7, 255, [3, 4]⟩ 8 1).fields ∧
    ∃ v, (pairAt simpleLibrary ⟨7, 255, [2, 17]⟩
          (HandleCommand.start simpleLibrary ⟨7, 255, [2, 17]⟩ 8 1).Index).outcome = .Ok v ∧
      (HandleCommand.pair simpleLibrary ⟨7, 255, [2, 17]⟩ 0
          (HandleCommand.start simpleLibrary ⟨7, 255, [2, 17]⟩ 8 1)).fields =
        (HandleCommand.start simpleLibrary ⟨7, 255, [2, 17]⟩ 8 1).fields.set
          (pairAt simpleLibrary ⟨7, 255, [2, 17]⟩
            (HandleCommand.start simpleLibrary ⟨7, 255, [2, 17]⟩ 8 1).Index).field
          { dirty := true, value := v } ∧
      ∀ k, k ≠ (pairAt simpleLibrary ⟨7, 255, [2, 17]⟩
            (HandleCommand.start simpleLibrary ⟨7, 255, [2, 17]⟩ 8 1).Index).field →
        (HandleCommand.pair simpleLibrary ⟨7, 255, [2, 17]⟩ 0
          (HandleCommand.start simpleLibrary ⟨7, 255, [2, 17]⟩ 8 1)).fields[k]? =
        (HandleCommand.start simpleLibrary ⟨7, 255, [2, 17]⟩ 8 1).fields[k]? :=
  ⟨(HandleCommand_pair_frame simpleLibrary ⟨7, 255, [3, 4]⟩ 0
      (HandleCommand.start simpleLibrary ⟨7, 255, [3, 4]⟩ 8 1)).2.2 (by decide),
    (HandleCommand_pair_frame simpleLibrary ⟨7, 255, [2, 17]⟩ 0
      (HandleCommand.start simpleLibrary ⟨7, 255, [2, 17]⟩ 8 1)).2.1 (by decide)⟩

theorem cursorAfter_eq (lib : N2kLibrary) (m : tN2kMsg) (c : Int) :
    cursorAfter lib m c = (FieldCodec lib m (pairAt lib m c).field (pairAt lib m c).valueCursor).2 :=
  rfl

/-- C15: for a reader whose reads advance the cursor by their width (one for
GetByte and Get1ByteUDouble, two for Get2ByteDouble), one pass of the loop body
of HandleCommand advances the cursor by an amount fixed by the field index of
the pair: the index byte and one value byte for the fields 2 to 8, the index
byte and two value bytes for field 9, the index byte alone for every other
index.  The value read does not matter. -/
theorem HandleCommand_cursor_advance (lib : N2kLibrary) (m : tN2kMsg) (i : Nat) (s : CommandLoop)
    (hByte : ∀ c, (lib.GetByte m c).2 = c + 1)
    (hOne : ∀ c, (lib.Get1ByteUDouble 0.005 m c).2 = c + 1)
    (hTwo : ∀ c, (lib.Get2ByteDouble 0.0001 m c).2 = c + 2) :
    (2 ≤ (pairAt lib m s.Index).field ∧ (pairAt lib m s.Index).field ≤ 8 →
        (HandleCommand.pair lib m i s).Index = s.Index + 1 + 1) ∧
      ((pairAt lib m s.Index).field = 9 →
        (HandleCommand.pair lib m i s).Index = s.Index + 1 + 2) ∧
      (¬ supported (pairAt lib m s.Index).field →
        (HandleCommand.pair lib m i s).Index = s.Index + 1) := by
  rw [pair_eq]
  simp only [cursorAfter_eq]
  have hv : (pairAt lib m s.Index).valueCursor = s.Index + 1 := hByte s.Index
  rw [hv]
  generalize (pairAt lib m s.Index).field = f
  refine ⟨?_, ?_, ?_⟩
  · rintro ⟨h2, h8⟩
    rcases field_cases f with rfl | rfl | rfl | rfl | rfl | rfl | rfl | rfl | h
    · simp [FieldCodec, hByte]
    · simp [FieldCodec, hByte]
    · simp [FieldCodec, hByte]
    · simp [FieldCodec, hByte]
    · simp [FieldCodec, hByte]
    · simp [FieldCodec, hByte]
    · simp only [FieldCodec]
      exact hOne _
    · omega
    · unfold supported at h; omega
  · rintro rfl
    simp only [FieldCodec]
    exact hTwo _
  · intro h
    rw [FieldCodec_unsupported lib m f _ h]

/-- C15 at concrete pairs, with the reader that reads byte by byte: behind the
pair (3, value 4), which is out of range, the cursor is at 2; behind the pair
(9, two value bytes) it is at 3; behind the index byte 0 it is at 1. -/
theorem HandleCommand_cursor_advance_witness :
    (HandleCommand.pair simpleLibrary ⟨7, 255, [3, 4]⟩ 0
        (HandleCommand.start simpleLibrary ⟨7, 255, [3, 4]⟩ 8 1)).Index =
      (HandleCommand.start simpleLibrary ⟨7, 255, [3, 4]⟩ 8 1).Index + 1 + 1 ∧
    (HandleCommand.pair simpleLibrary ⟨7, 255, [9, 0x10, 0x27]⟩ 0
        (HandleCommand.start simpleLibrary ⟨7, 255, [9, 0x10, 0x27]⟩ 8 1)).Index =
      (HandleCommand.start simpleLibrary ⟨7, 255, [9, 0x10, 0x27]⟩ 8 1).Index + 1 + 2 ∧
    (HandleCommand.pair simpleLibrary ⟨7, 255, [0]⟩ 0
        (HandleCommand.start simpleLibrary ⟨7, 255, [0]⟩ 8 1)).Index =
      (HandleCommand.start simpleLibrary ⟨7, 255, [0]⟩ 8 1).Index + 1 :=
  ⟨(HandleCommand_cursor_advance simpleLibrary ⟨7, 255, [3, 4]⟩ 0
      (HandleCommand.start simpleLibrary ⟨7, 255, [3, 4]⟩ 8 1)
      (fun _ => rfl) (fun _ => rfl) (fun _ => rfl)).1 (by decide),
    (HandleCommand_cursor_advance simpleLibrary ⟨7, 255, [9, 0x10, 0x27]⟩ 0
      (HandleCommand.start simpleLibrary ⟨7, 255, [9, 0x10, 0x27]⟩ 8 1)
      (fun _ => rfl) (fun _ => rfl) (fun _ => rfl)).2.1 (by decide),
    (HandleCommand_cursor_advance simpleLibrary ⟨7, 255, [0]⟩ 0
      (HandleCommand.start simpleLibrary ⟨7, 255, [0]⟩ 8 1)
      (fun _ => rfl) (fun _ => rfl) (fun _ => rfl)).2.2 (by decide)⟩

theorem pairAt_outcome_field4 (lib : N2kLibrary) (m : tN2kMsg) (c : Int)
    (h : (pairAt lib m c).field = 4) :
    (pairAt lib m c).outcome = decodePower ((pairAt lib m c).valueByte lib m) := by
  unfold pairAt ParameterPair.valueByte at *
  simp only at h
  simp [h, FieldCodec]

/-- C16: the loop body of HandleCommand on a pair with field index 4 and value
byte b.  With b % 4 = 0, 1, 2, 3 it stages Off, On, Error, Unavailable at
entry 4.  For every b it adds code Acknowledge and leaves the gate as it was:
the ParameterOutOfRange branch of the field-4 switch is never taken. -/
theorem HandleCommand_field4_decode (lib : N2kLibrary) (m : tN2kMsg) (i : Nat) (s : CommandLoop)
    (h4 : (pairAt lib m s.Index).field = 4) :
    ((pairAt lib m s.Index).valueByte lib m % 4 = 0 →
        (HandleCommand.pair lib m i s).fields =
        s.fields.set 4 { dirty := true, value := .F04 N2kDD002_Off }) ∧
      ((pairAt lib m s.Index).valueByte lib m % 4 = 1 →
        (HandleCommand.pair lib m i s).fields =
        s.fields.set 4 { dirty := true, value := .F04 N2kDD002_On }) ∧
      ((pairAt lib m s.Index).valueByte lib m % 4 = 2 →
        (HandleCommand.pair lib m i s).fields =
        s.fields.set 4 { dirty := true, value := .F04 N2kDD002_Error }) ∧
      ((pairAt lib m s.Index).valueByte lib m % 4 = 3 →
        (HandleCommand.pair lib m i s).fields =
        s.fields.set 4 { dirty := true, value := .F04 N2kDD002_Unavailable }) ∧
      (HandleCommand.pair lib m i s).N2kRMsg =
        { s.N2kRMsg with Parameters := s.N2kRMsg.Parameters ++ [(i, N2kgfpec_Acknowledge)] } ∧
      (HandleCommand.pair lib m i s).canUpdate = s.canUpdate := by
  have ho := pairAt_outcome_field4 lib m s.Index h4
  obtain ⟨v, hv⟩ := decodePower_ok ((pairAt lib m s.Index).valueByte lib m)
  rw [pair_eq]
  simp only [stagePair, stage, keepsGate, AddAcknowledgeParameter, ho, h4]
  refine ⟨?_, ?_, ?_, ?_, ?_, ?_⟩
  · intro hb; simp [decodePower, hb]
  · intro hb; simp [decodePower, hb]
  · intro hb; simp [decodePower, hb]
  · intro hb; simp [decodePower, hb]
  · rw [hv]; rfl
  · rw [hv]; simp

/-- C16 at a concrete pair: field 4 with value byte 0xff (low two bits 3)
stages Unavailable. -/
theorem HandleCommand_field4_decode_witness :
    (pairAt simpleLibrary ⟨7, 255, [4, 0xff]⟩
        (HandleCommand.start simpleLibrary ⟨7, 255, [4, 0xff]⟩ 8 1).Index).field = 4 ∧
      (HandleCommand.pair simpleLibrary ⟨7, 255, [4, 0xff]⟩ 0
        (HandleCommand.start simpleLibrary ⟨7, 255, [4, 0xff]⟩ 8 1)).fields =
        (HandleCommand.start simpleLibrary ⟨7, 255, [4, 0xff]⟩ 8 1).fields.set 4
          { dirty := true, value := .F04 N2kDD002_Unavailable } :=
  ⟨by decide,
    (HandleCommand_field4_decode simpleLibrary ⟨7, 255, [4, 0xff]⟩ 0
      (HandleCommand.start simpleLibrary ⟨7, 255, [4, 0xff]⟩ 8 1) (by decide)).2.2.2.1
        (by decide)⟩

theorem pairAt_outcome_field8 (lib : N2kLibrary) (m : tN2kMsg) (c : Int)
    (h : (pairAt lib m c).field = 8) :
    (pairAt lib m c).outcome =
      .Ok (.F08 (lib.Get1ByteUDouble 0.005 m (pairAt lib m c).valueCursor).1) := by
  unfold pairAt at *
  simp only at h
  simp only [h, FieldCodec]
  rfl

theorem pairAt_outcome_field9 (lib : N2kLibrary) (m : tN2kMsg) (c : Int)
    (h : (pairAt lib m c).field = 9) :
    (pairAt lib m c).outcome =
      .Ok (.F09 (lib.Get2ByteDouble 0.0001 m (pairAt lib m c).valueCursor).1) := by
  unfold pairAt at *
  simp only at h
  simp only [h, FieldCodec]
  rfl

/-- C17: the loop body of HandleCommand on a pair with field index 8 sets
entry 8 of the array to dirty with the value Get1ByteUDouble returns for
precision 0.005, and on a pair with field index 9 it sets entry 9 to dirty with
the value Get2ByteDouble returns for precision 0.0001; both add code
Acknowledge and leave the gate as it was, whatever the raw value is.  When the
one-byte read returns the raw byte at the value cursor times the precision, the
value at entry 8 is that byte times 0.005, and raw byte 200 gives 1.  When the
two-byte read returns the two raw bytes at the value cursor, low byte first,
read as a signed 16-bit number, times the precision, the value at entry 9 is
that number times 0.0001, and raw value 10000 gives 1.  The arithmetic is
exact, over the rationals. -/
theorem HandleCommand_scaled_fields (lib : N2kLibrary) (m : tN2kMsg) (i : Nat) (s : CommandLoop) :
    ((pairAt lib m s.Index).field = 8 →
        (HandleCommand.pair lib m i s).fields =
          s.fields.set 8
            { dirty := true
              value := .F08 (lib.Get1ByteUDouble 0.005 m (pairAt lib m s.Index).valueCursor).1 } ∧
        (HandleCommand.pair lib m i s).N2kRMsg =
          { s.N2kRMsg with Parameters := s.N2kRMsg.Parameters ++ [(i, N2kgfpec_Acknowledge)] } ∧
        (HandleCommand.pair lib m i s).canUpdate = s.canUpdate ∧
        ((lib.Get1ByteUDouble 0.005 m (pairAt lib m s.Index).valueCursor).1 =
            ((pairAt lib m s.Index).valueByte lib m : ℚ) * 0.005 →
          (HandleCommand.pair lib m i s).fields =
            s.fields.set 8
              { dirty := true
                value := .F08 (((pairAt lib m s.Index).valueByte lib m : ℚ) * 0.005) } ∧
          ((pairAt lib m s.Index).valueByte lib m = 200 →
            (HandleCommand.pair lib m i s).fields =
              s.fields.set 8 { dirty := true, value := .F08 1 }))) ∧
      ((pairAt lib m s.Index).field = 9 →
        (HandleCommand.pair lib m i s).fields =
          s.fields.set 9
            { dirty := true
              value := .F09 (lib.Get2ByteDouble 0.0001 m (pairAt lib m s.Index).valueCursor).1 } ∧
        (HandleCommand.pair lib m i s).N2kRMsg =
          { s.N2kRMsg with Parameters := s.N2kRMsg.Parameters ++ [(i, N2kgfpec_Acknowledge)] } ∧
        (HandleCommand.pair lib m i s).canUpdate = s.canUpdate ∧
        ∀ raw : Nat,
          raw = (lib.GetByte m (pairAt lib m s.Index).valueCursor).1 % 256 +
            256 * ((lib.GetByte m (lib.GetByte m (pairAt lib m s.Index).valueCursor).2).1 % 256) →
          (lib.Get2ByteDouble 0.0001 m (pairAt lib m s.Index).valueCursor).1 =
            (int16_t raw : ℚ) * 0.0001 →
          (HandleCommand.pair lib m i s).fields =
            s.fields.set 9 { dirty := true, value := .F09 ((int16_t raw : ℚ) * 0.0001) } ∧
          (raw = 10000 →
            (HandleCommand.pair lib m i s).fields =
              s.fields.set 9 { dirty := true, value := .F09 1 })) := by
  refine ⟨?_, ?_⟩
  · intro h8
    have hf : (HandleCommand.pair lib m i s).fields =
        s.fields.set 8
          { dirty := true
            value := .F08 (lib.Get1ByteUDouble 0.005 m (pairAt lib m s.Index).valueCursor).1 } := by
      rw [pair_eq]
      simp only [stagePair, stage, pairAt_outcome_field8 lib m s.Index h8, h8]
    refine ⟨hf, ?_, ?_, ?_⟩
    · rw [pair_eq]
      simp only [pairAt_outcome_field8 lib m s.Index h8]
      rfl
    · rw [pair_eq]
      simp [keepsGate, pairAt_outcome_field8 lib m s.Index h8]
    · intro hread
      refine ⟨by rw [hf, hread], ?_⟩
      intro h200
      rw [hf, hread, h200]
      norm_num
  · intro h9
    have hf : (HandleCommand.pair lib m i s).fields =
        s.fields.set 9
          { dirty := true
            value := .F09 (lib.Get2ByteDouble 0.0001 m (pairAt lib m s.Index).valueCursor).1 } := by
      rw [pair_eq]
      simp only [stagePair, stage, pairAt_outcome_field9 lib m s.Index h9, h9]
    refine ⟨hf, ?_, ?_, ?_⟩
    · rw [pair_eq]
      simp only [pairAt_outcome_field9 lib m s.Index h9]
      rfl
    · rw [pair_eq]
      simp [keepsGate, pairAt_outcome_field9 lib m s.Index h9]
    · intro raw _ hread
      refine ⟨by rw [hf, hread], ?_⟩
      intro hraw
      rw [hf, hread, hraw]
      have h1 : int16_t 10000 = 10000 := by decide
      rw [h1]
      norm_num

/-- C17 at concrete pairs, with the reader that reads byte by byte: the pair
(8, raw byte 200) sets entry 8 to dirty with value 1, and the pair
(9, raw bytes 0x10 0x27, that is 10000) sets entry 9 to dirty with value 1;
all other entries stay as initialised. -/
theorem HandleCommand_scaled_fields_witness :
    (HandleCommand.pair simpleLibrary ⟨7, 255, [8, 200]⟩ 0
        (HandleCommand.start simpleLibrary ⟨7, 255, [8, 200]⟩ 8 1)).fields =
      initialFields.set 8 { dirty := true, value := .F08 1 } ∧
    (HandleCommand.pair simpleLibrary ⟨7, 255, [9, 0x10, 0x27]⟩ 0
        (HandleCommand.start simpleLibrary ⟨7, 255, [9, 0x10, 0x27]⟩ 8 1)).fields =
      initialFields.set 9 { dirty := true, value := .F09 1 } :=
  ⟨(((HandleCommand_scaled_fields simpleLibrary ⟨7, 255, [8, 200]⟩ 0
      (HandleCommand.start simpleLibrary ⟨7, 255, [8, 200]⟩ 8 1)).1 (by decide)).2.2.2
        (by simp [simpleLibrary, pairAt, ParameterPair.valueByte, HandleCommand.start])).2
        (by decide),
    (((HandleCommand_scaled_fields simpleLibrary ⟨7, 255, [9, 0x10, 0x27]⟩ 0
      (HandleCommand.start simpleLibrary ⟨7, 255, [9, 0x10, 0x27]⟩ 8 1)).2 (by decide)).2.2.2
        10000 (by decide)
        (by
          have h1 : int16_t 10000 = 10000 := by decide
          rw [h1]
          simp [simpleLibrary, pairAt, HandleCommand.start]
          norm_num)).2 rfl⟩

/-! ## The staging array over the whole loop -/

theorem pairAt_ok_supported (lib : N2kLibrary) (m : tN2kMsg) (c : Int) (v : PGN128006_Value)
    (h : (pairAt lib m c).outcome = .Ok v) : supported (pairAt lib m c).field := by
  by_contra hs
  have := FieldCodec_unsupported lib m (pairAt lib m c).field (pairAt lib m c).valueCursor hs
  have h2 : (pairAt lib m c).outcome =
      .Err N2kgfpec_InvalidRequestOrCommandParameterField := by
    show (FieldCodec lib m (pairAt lib m c).field (pairAt lib m c).valueCursor).1 = _
    rw [this]
  rw [h2] at h
  cases h

theorem mem_commandPairs_ok_supported (lib : N2kLibrary) (m : tN2kMsg) :
    ∀ (count : Nat) (cursor : Int) (p : ParameterPair), p ∈ commandPairs lib m count cursor →
      ∀ v, p.outcome = .Ok v → supported p.field := by
  intro count
  induction count with
  | zero => intro cursor p hp; simp [commandPairs] at hp
  | succ k ih =>
    intro cursor p hp v hv
    simp only [commandPairs, List.mem_cons] at hp
    rcases hp with rfl | hp
    · exact pairAt_ok_supported lib m cursor v hv
    · exact ih _ p hp v hv

theorem foldl_stagePair_getElem?_of_no_write (pairs : List ParameterPair) (k : Nat) :
    ∀ fields : List PGN128006_Field,
      (∀ q ∈ pairs, q.field = k → ∀ w, q.outcome ≠ .Ok w) →
      (pairs.foldl stagePair fields)[k]? = fields[k]? := by
  induction pairs with
  | nil => intro fields _; rfl
  | cons p ps ih =>
    intro fields h
    rw [List.foldl_cons, ih _ (fun q hq => h q (List.mem_cons_of_mem _ hq))]
    unfold stagePair
    split
    · rename_i v hv
      have hne : k ≠ p.field := fun hk => h p (List.mem_cons_self _ _) hk.symm v hv
      exact getElem?_stage_of_ne _ _ _ _ hne
    · rfl

/-- C18: in one pass of the loop body of HandleCommand the array either stays
as it is or is written at the field index of the pair, and then that index is
between 2 and 9.  After any number of passes of the loop, started as
HandleCommand starts it, the array has its 10 entries, so every write is
inside the array, and the entries 0 and 1 are as initialised: not dirty. -/
theorem HandleCommand_array_bounds (lib : N2kLibrary) (N2kMsg : tN2kMsg)
    (PrioritySetting NumberOfParameterPairs : Nat) :
    (∀ (i : Nat) (s : CommandLoop),
        (HandleCommand.pair lib N2kMsg i s).fields = s.fields ∨
        ∃ v, 2 ≤ (pairAt lib N2kMsg s.Index).field ∧ (pairAt lib N2kMsg s.Index).field ≤ 9 ∧
          (HandleCommand.pair lib N2kMsg i s).fields =
            s.fields.set (pairAt lib N2kMsg s.Index).field { dirty := true, value := v }) ∧
      (∀ passes : Nat,
        (HandleCommand.loop lib N2kMsg passes 0
          (HandleCommand.start lib N2kMsg PrioritySetting NumberOfParameterPairs)).fields.length = 10 ∧
        (HandleCommand.loop lib N2kMsg passes 0
          (HandleCommand.start lib N2kMsg PrioritySetting NumberOfParameterPairs)).fields[0]? =
            some { dirty := false, value := .Zero } ∧
        (HandleCommand.loop lib N2kMsg passes 0
          (HandleCommand.start lib N2kMsg PrioritySetting NumberOfParameterPairs)).fields[1]? =
            some { dirty := false, value := .Zero }) ∧
      ¬ dirtyAt (HandleCommand.final lib N2kMsg PrioritySetting NumberOfParameterPairs).fields 0 ∧
      ¬ dirtyAt (HandleCommand.final lib N2kMsg PrioritySetting NumberOfParameterPairs).fields 1 := by
  have hno : ∀ (passes k : Nat), k < 2 →
      ∀ q ∈ commandPairs lib N2kMsg passes (lib.StartParseCommandPairParameters N2kMsg),
        q.field = k → ∀ w, q.outcome ≠ .Ok w := by
    intro passes k hk q hq hqk w hw
    have := mem_commandPairs_ok_supported lib N2kMsg _ _ q hq w hw
    unfold supported at this
    omega
  have hloop : ∀ passes : Nat,
      (HandleCommand.loop lib N2kMsg passes 0
        (HandleCommand.start lib N2kMsg PrioritySetting NumberOfParameterPairs)).fields.length = 10 ∧
      (HandleCommand.loop lib N2kMsg passes 0
        (HandleCommand.start lib N2kMsg PrioritySetting NumberOfParameterPairs)).fields[0]? =
          some { dirty := false, value := .Zero } ∧
      (HandleCommand.loop lib N2kMsg passes 0
        (HandleCommand.start lib N2kMsg PrioritySetting NumberOfParameterPairs)).fields[1]? =
          some { dirty := false, value := .Zero } := by
    intro passes
    rw [loop_fields]
    refine ⟨?_, ?_, ?_⟩
    · rw [foldl_stagePair_length]; rfl
    · exact (foldl_stagePair_getElem?_of_no_write _ 0 _ (hno passes 0 (by decide))).trans rfl
    · exact (foldl_stagePair_getElem?_of_no_write _ 1 _ (hno passes 1 (by decide))).trans rfl
  refine ⟨?_, hloop, ?_, ?_⟩
  · intro i s
    rw [pair_eq]
    rcases pairAt_outcome_cases lib N2kMsg s.Index with ⟨v, hv⟩ | hv | hv
    · right
      have hs := pairAt_ok_supported lib N2kMsg s.Index v hv
      exact ⟨v, hs.1, hs.2, by simp [stagePair, hv, stage]⟩
    · left; simp [stagePair, hv]
    · left; simp [stagePair, hv]
  · rintro ⟨e, he, hd⟩
    have := (hloop NumberOfParameterPairs).2.1
    unfold HandleCommand.final at he
    rw [this] at he
    cases he
    cases hd
  · rintro ⟨e, he, hd⟩
    have := (hloop NumberOfParameterPairs).2.2
    unfold HandleCommand.final at he
    rw [this] at he
    cases he
    cases hd

/-- C19: let p be a pair of the command that decoded to the value v, and let no
pair behind p with the same field index decode to a value (p is the last pair
of its index that decoded).  Then after the loop of HandleCommand the entry at
that index is dirty with the value v, whatever the pairs before p staged and
whether or not pairs behind p with the same index failed.  When a pair behind
p is out of range, the gate is closed and the update function is not
invoked. -/
theorem HandleCommand_last_write_wins (lib : N2kLibrary) (N2kMsg : tN2kMsg)
    (PrioritySetting NumberOfParameterPairs : Nat) (iDev : Int)
    (before behind : List ParameterPair) (p : ParameterPair) (v : PGN128006_Value)
    (hsplit : pairsOf lib N2kMsg NumberOfParameterPairs = before ++ p :: behind)
    (hv : p.outcome = .Ok v)
    (hlast : ∀ q ∈ behind, q.field = p.field → ∀ w, q.outcome ≠ .Ok w) :
    (HandleCommand.final lib N2kMsg PrioritySetting NumberOfParameterPairs).fields[p.field]? =
        some { dirty := true, value := v } ∧
      ((∃ q ∈ behind, q.outcome = .Err N2kgfpec_RequestOrCommandParameterOutOfRange) →
        (HandleCommand.final lib N2kMsg PrioritySetting NumberOfParameterPairs).canUpdate = false ∧
        (HandleCommand lib N2kMsg PrioritySetting NumberOfParameterPairs iDev).updated = []) := by
  have hp : p ∈ pairsOf lib N2kMsg NumberOfParameterPairs := by
    rw [hsplit]; simp
  have hs : supported p.field := mem_commandPairs_ok_supported lib N2kMsg _ _ p hp v hv
  constructor
  · rw [final_fields, hsplit, List.foldl_append, List.foldl_cons,
      foldl_stagePair_getElem?_of_no_write behind p.field _ hlast]
    have hlen : (List.foldl stagePair initialFields before).length = 10 := by
      rw [foldl_stagePair_length]; rfl
    unfold supported at hs
    simp only [stagePair, hv, stage]
    rw [List.getElem?_set]
    simp [hlen]
    omega
  · rintro ⟨q, hq, hout⟩
    have hgate : (pairsOf lib N2kMsg NumberOfParameterPairs).all keepsGate = false := by
      rw [List.all_eq_false]
      refine ⟨q, ?_, by simp [keepsGate, hout]⟩
      rw [hsplit]
      exact List.mem_append_right _ (List.mem_cons_of_mem _ hq)
    constructor
    · rw [final_canUpdate, hgate]
    · simp [HandleCommand, final_canUpdate, hgate]

/-- C19 at concrete commands.  The pairs (2, value 5), (2, value 9): entry 2
holds 9.  The pairs (3, value 1), (3, value 4): the second is out of range,
entry 3 stays dirty with ThrusterReady, and the update function is not
invoked. -/
theorem HandleCommand_last_write_wins_witness :
    (HandleCommand.final simpleLibrary ⟨7, 255, [2, 5, 2, 9]⟩ 8 2).fields[2]? =
        some { dirty := true, value := .F02 9 } ∧
      (HandleCommand.final simpleLibrary ⟨7, 255, [3, 1, 3, 4]⟩ 8 2).fields[3]? =
        some { dirty := true, value := .F03 N2kDD473_ThrusterReady } ∧
      (HandleCommand simpleLibrary ⟨7, 255, [3, 1, 3, 4]⟩ 8 2 0).updated = [] :=
  have h1 := HandleCommand_last_write_wins simpleLibrary ⟨7, 255, [2, 5, 2, 9]⟩ 8 2 0
    [⟨2, 1, .Ok (.F02 5)⟩] [] ⟨2, 3, .Ok (.F02 9)⟩ (.F02 9) (by decide) rfl
    (by intro q hq; cases hq)
  have h2 := HandleCommand_last_write_wins simpleLibrary ⟨7, 255, [3, 1, 3, 4]⟩ 8 2 0
    [] [⟨3, 3, .Err N2kgfpec_RequestOrCommandParameterOutOfRange⟩]
    ⟨3, 1, .Ok (.F03 N2kDD473_ThrusterReady)⟩ (.F03 N2kDD473_ThrusterReady) (by decide) rfl
    (by
      intro q hq _ w hw
      rw [List.mem_singleton] at hq
      subst hq
      cases hw)
  ⟨h1.1, h2.1, (h2.2 ⟨_, List.mem_singleton.2 rfl, rfl⟩).2⟩

end THR100
